import Mathlib

/-!
Verification of the UBX protocol frame decoder.

The repository holds two implementations of the same byte-driven decoder:
* `src/unnamed/part_000` — the backtracking variant: on a checksum mismatch it
  reconstructs the consumed frame body and re-injects it into the unread input;
* `src/src/index.js` — the non-backtracking variant: on a mismatch it simply
  resets and continues after the corrupt frame.

Both are shallowly embedded below.  Machine bytes are `Nat` (with `% 256`
where the source performs 8/16-bit writes), buffers are `List Nat`, the
nullable payload buffer is `Option (List Nat)`, and the JS `number` fields
that may be negative (`maxPacketPayloadLength`, `streamIndex`) are `Int`.
The backtracking processing loop can grow its working buffer, so it is
embedded with explicit fuel plus a proved sufficient fuel bound.
-/

set_option maxHeartbeats 1000000

/-- The eight `PACKET_*` state constants of the source. -/
inductive PacketState where
  | PACKET_SYNC_1
  | PACKET_SYNC_2
  | PACKET_CLASS
  | PACKET_ID
  | PACKET_LENGTH
  | PACKET_LENGTH_2
  | PACKET_PAYLOAD
  | PACKET_CHECKSUM
deriving DecidableEq, Repr

/-- The frame-in-progress object of the backtracking variant (`this.packet`).
`class` is a Lean keyword, so the field is called `cls`.  The variant also
stores the raw low/high bytes `length1`, `length2`, `checksum1`, `checksum2`. -/
structure PacketB where
  cls : Nat
  id : Nat
  length : Nat
  length1 : Nat
  length2 : Nat
  checksum1 : Nat
  checksum2 : Nat
  checksum : Nat
  payload : Option (List Nat)
deriving DecidableEq, Repr

/-- `packetTemplate` of the source (all numeric fields `0`, `payload: null`). -/
def packetTemplateB : PacketB :=
  { cls := 0, id := 0, length := 0, length1 := 0, length2 := 0,
    checksum1 := 0, checksum2 := 0, checksum := 0, payload := none }

/-- The snapshot of the frame-in-progress that diagnostic events carry
(the five fields shared by both implementations). -/
structure PacketSnap where
  cls : Nat
  id : Nat
  length : Nat
  payload : Option (List Nat)
  checksum : Nat
deriving DecidableEq, Repr

/-- Observable outputs: a decoded packet pushed on the data channel, or one of
the four diagnostic events, each carrying the context the source attaches. -/
inductive Event where
  | packet (messageClass messageId : Nat) (payload : List Nat)
  | payloadTooLarge (packet : PacketSnap) (maxPacketPayloadLength : Int)
  | wrongPayloadLength (packet : PacketSnap) (expectedPayloadLength : Nat)
  | failedChecksum (packet : PacketSnap) (checksum : Nat)
  | pollingMessage (packet : PacketSnap)
deriving DecidableEq, Repr

/-- Decoder state of the backtracking variant: the mutable fields of
`UBXProtocolParser` in `src/unnamed/part_000`. -/
structure ParserStateB where
  packet : PacketB
  payloadPosition : Nat
  packetStartFound : Bool
  packetState : PacketState
  streamIndex : Int
  maxPacketPayloadLength : Int
deriving DecidableEq, Repr

/-- The constructor: `options.maxPacketPayloadLength` when it is a number,
otherwise the default `300`.  It performs no validation. -/
def constructB (options : Option Int) : ParserStateB :=
  { packet := packetTemplateB, payloadPosition := 0, packetStartFound := false,
    packetState := .PACKET_SYNC_1, streamIndex := 0,
    maxPacketPayloadLength := options.getD 300 }

/-- `resetState()` of the backtracking variant: clears the frame-in-progress,
keeps `streamIndex` and the configured maximum. -/
def resetStateB (s : ParserStateB) : ParserStateB :=
  { s with packetState := .PACKET_SYNC_1, packet := packetTemplateB,
           payloadPosition := 0, packetStartFound := false }

/-- `_flush` discards any partial frame via `resetState()`. -/
def flushB (s : ParserStateB) : ParserStateB := resetStateB s

/-- `calcCheckSum`: writes `class`, `id` as bytes and `length` little-endian
into a 4-byte header, appends the payload, and runs the two 8-bit
accumulators `a`, `b` over it; the result is `(b << 8) | a`. -/
def calcCheckSum (messageClass id length : Nat) (payload : List Nat) : Nat :=
  let buffer := [messageClass % 256, id % 256, length % 256, length / 256 % 256] ++ payload
  let ab := buffer.foldl
    (fun (ab : Nat × Nat) v =>
      let a := (ab.1 + v) % 256
      (a, (ab.2 + a) % 256)) (0, 0)
  (ab.2 <<< 8) ||| ab.1

/-- Snapshot of a backtracking-variant packet as carried by events. -/
def snapB (p : PacketB) : PacketSnap :=
  { cls := p.cls, id := p.id, length := p.length, payload := p.payload,
    checksum := p.checksum }

/-- The bytes reconstructed on a checksum mismatch: the 4-byte header
(`class`, `id`, `payload.length` little-endian), the payload, and the two
received checksum bytes. -/
def reinjectBytes (p : PacketB) : List Nat :=
  let plen := (p.payload.getD []).length
  [p.cls, p.id, plen % 256, plen / 256 % 256] ++ p.payload.getD [] ++ [p.checksum1, p.checksum2]

/-- One iteration of the `_transform` loop of the backtracking variant on a
single byte: the new state, the events emitted (pushes and `emit`s in order),
and, on a checksum mismatch, the byte sequence spliced back in front of the
unread input. -/
def stepB (lookup : Nat → Nat → Option Nat) (s : ParserStateB) (b : Nat) :
    ParserStateB × List Event × Option (List Nat) :=
  if s.packetStartFound then
    match s.packetState with
    | .PACKET_SYNC_1 =>
        if b = 0x62 then
          ({ s with packetState := .PACKET_SYNC_2, streamIndex := s.streamIndex + 1 }, [], none)
        else if b = 0xB5 then
          ({ s with streamIndex := s.streamIndex + 1 }, [], none)
        else
          ({ resetStateB s with streamIndex := s.streamIndex + 1 }, [], none)
    | .PACKET_SYNC_2 =>
        ({ s with packet := { s.packet with cls := b }, packetState := .PACKET_CLASS,
                  streamIndex := s.streamIndex + 1 }, [], none)
    | .PACKET_CLASS =>
        ({ s with packet := { s.packet with id := b }, packetState := .PACKET_ID,
                  streamIndex := s.streamIndex + 1 }, [], none)
    | .PACKET_ID =>
        ({ s with packet := { s.packet with length1 := b }, packetState := .PACKET_LENGTH,
                  streamIndex := s.streamIndex + 1 }, [], none)
    | .PACKET_LENGTH =>
        let p := { s.packet with length2 := b, length := s.packet.length1 + b * 256 }
        if s.maxPacketPayloadLength ≠ 0 ∧ (p.length : Int) > s.maxPacketPayloadLength then
          ({ resetStateB s with streamIndex := s.streamIndex + 1 },
           [Event.payloadTooLarge (snapB p) s.maxPacketPayloadLength], none)
        else if p.length = 0 then
          ({ s with packet := { p with payload := some [] }, packetState := .PACKET_PAYLOAD,
                    streamIndex := s.streamIndex + 1 }, [], none)
        else
          match lookup p.cls p.id with
          | some expected =>
              if p.length ≠ expected then
                ({ resetStateB s with streamIndex := s.streamIndex + 1 },
                 [Event.wrongPayloadLength (snapB p) expected], none)
              else
                ({ s with packet := p, packetState := .PACKET_LENGTH_2,
                          streamIndex := s.streamIndex + 1 }, [], none)
          | none =>
              ({ s with packet := p, packetState := .PACKET_LENGTH_2,
                        streamIndex := s.streamIndex + 1 }, [], none)
    | .PACKET_LENGTH_2 =>
        let pl := match s.packet.payload with
          | none => List.replicate s.packet.length 0
          | some l => l
        let pos := match s.packet.payload with
          | none => 0
          | some _ => s.payloadPosition
        let pos' := pos + 1
        ({ s with packet := { s.packet with payload := some (pl.set pos b) },
                  payloadPosition := pos',
                  packetState := if pos' ≥ s.packet.length then .PACKET_PAYLOAD
                                 else .PACKET_LENGTH_2,
                  streamIndex := s.streamIndex + 1 }, [], none)
    | .PACKET_PAYLOAD =>
        ({ s with packet := { s.packet with checksum1 := b }, packetState := .PACKET_CHECKSUM,
                  streamIndex := s.streamIndex + 1 }, [], none)
    | .PACKET_CHECKSUM =>
        let p := { s.packet with checksum2 := b, checksum := s.packet.checksum1 + b * 256 }
        let computed := calcCheckSum p.cls p.id p.length (p.payload.getD [])
        if computed = p.checksum then
          if p.length > 0 then
            ({ resetStateB s with streamIndex := s.streamIndex + 1 },
             [Event.packet p.cls p.id (p.payload.getD [])], none)
          else
            ({ resetStateB s with streamIndex := s.streamIndex + 1 },
             [Event.pollingMessage (snapB p)], none)
        else
          ({ resetStateB s with
               streamIndex := s.streamIndex - (4 + ((p.payload.getD []).length : Int) + 2) + 1 },
           [Event.failedChecksum (snapB p) computed], some (reinjectBytes p))
  else
    if b = 0xB5 then
      ({ s with packetStartFound := true, packetState := .PACKET_SYNC_1,
                streamIndex := s.streamIndex + 1 }, [], none)
    else
      ({ s with streamIndex := s.streamIndex + 1 }, [], none)

/-- The `_transform` loop of the backtracking variant, with explicit fuel
(one unit per loop iteration).  `none` means the fuel ran out; a sufficient
fuel amount is proved below (`runB_total`). -/
def runB (lookup : Nat → Nat → Option Nat) :
    Nat → ParserStateB → List Nat → Option (ParserStateB × List Event)
  | 0, _, _ => none
  | _ + 1, s, [] => some (s, [])
  | fuel + 1, s, b :: rest =>
      let r := stepB lookup s b
      match r.2.2 with
      | none => (runB lookup fuel r.1 rest).map fun q => (q.1, r.2.1 ++ q.2)
      | some inj => (runB lookup fuel r.1 (inj ++ rest)).map fun q => (q.1, r.2.1 ++ q.2)

/-- Number of already-consumed frame-body bytes that a later checksum
mismatch would re-inject; used only for the fuel bound. -/
def frameBytes (s : ParserStateB) : Nat :=
  if s.packetStartFound then
    match s.packetState with
    | .PACKET_SYNC_1 => 0
    | .PACKET_SYNC_2 => 0
    | .PACKET_CLASS => 1
    | .PACKET_ID => 2
    | .PACKET_LENGTH => 3
    | .PACKET_LENGTH_2 => 4 + s.payloadPosition
    | .PACKET_PAYLOAD => 4 + (s.packet.payload.getD []).length
    | .PACKET_CHECKSUM => 5 + (s.packet.payload.getD []).length
  else 0

/-- `1` while assembling a frame past the sync trailer; used only for the
fuel bound. -/
def inFrameFlag (s : ParserStateB) : Nat :=
  if s.packetStartFound ∧ s.packetState ≠ .PACKET_SYNC_1 then 1 else 0

/-- A fuel amount sufficient to process `d` from state `s`
(proved in `runB_total`). -/
def stepBound (s : ParserStateB) (d : List Nat) : Nat :=
  let m := d.length + frameBytes s
  2 * m * m + 2 * m * inFrameFlag s + d.length + 1

/-- Processing one input chunk to completion (the fuel bound is sufficient
for every state satisfying the decoder invariant `InvB`). -/
def processB (lookup : Nat → Nat → Option Nat) (s : ParserStateB) (d : List Nat) :
    ParserStateB × List Event :=
  (runB lookup (stepBound s d) s d).getD (s, [])

/-- Feeding several chunks in sequence, accumulating the emitted events. -/
def processChunksB (lookup : Nat → Nat → Option Nat) (s : ParserStateB)
    (chunks : List (List Nat)) : ParserStateB × List Event :=
  chunks.foldl (fun acc c =>
    let r := processB lookup acc.1 c
    (r.1, acc.2 ++ r.2)) (s, [])

/-- The decoder invariant: a fresh scanner state behind `packetStartFound`,
`payload` allocated exactly from length validation onward with its size equal
to the declared length, and `payloadPosition` within bounds. -/
def InvB (s : ParserStateB) : Prop :=
  (s.packetStartFound = false → s.packetState = .PACKET_SYNC_1) ∧
  match s.packetState with
  | .PACKET_SYNC_1 | .PACKET_SYNC_2 | .PACKET_CLASS | .PACKET_ID | .PACKET_LENGTH =>
      s.packet.payload = none ∧ s.payloadPosition = 0
  | .PACKET_LENGTH_2 =>
      s.payloadPosition < s.packet.length ∧
      match s.packet.payload with
      | none => s.payloadPosition = 0
      | some l => l.length = s.packet.length
  | .PACKET_PAYLOAD | .PACKET_CHECKSUM =>
      s.payloadPosition ≤ s.packet.length ∧
      match s.packet.payload with
      | none => False
      | some l => l.length = s.packet.length

instance (s : ParserStateB) : Decidable (InvB s) := by
  obtain ⟨⟨c, i, L, l1, l2, k1, k2, k, pl⟩, pos, sf, st, six, mx⟩ := s
  unfold InvB
  cases st <;> cases pl <;> exact inferInstance

/-- A clean scanning state with a given configured maximum and stream
position; `constructB opts = scanState (opts.getD 300) 0` and
`resetStateB s = scanState s.maxPacketPayloadLength s.streamIndex`. -/
def scanState (maxLen : Int) (ix : Int) : ParserStateB :=
  { packet := packetTemplateB, payloadPosition := 0, packetStartFound := false,
    packetState := .PACKET_SYNC_1, streamIndex := ix, maxPacketPayloadLength := maxLen }

/-- The frame-in-progress of the non-backtracking variant (`src/src/index.js`):
`length` and `checksum` double as accumulators for their low bytes. -/
structure PacketNB where
  cls : Nat
  id : Nat
  length : Nat
  payload : Option (List Nat)
  checksum : Nat
deriving DecidableEq, Repr

def packetTemplateNB : PacketNB :=
  { cls := 0, id := 0, length := 0, payload := none, checksum := 0 }

/-- Decoder state of the non-backtracking variant. -/
structure ParserStateNB where
  packet : PacketNB
  payloadPosition : Nat
  packetStartFound : Bool
  packetState : PacketState
  streamIndex : Int
  maxPacketPayloadLength : Int
deriving DecidableEq, Repr

def constructNB (options : Option Int) : ParserStateNB :=
  { packet := packetTemplateNB, payloadPosition := 0, packetStartFound := false,
    packetState := .PACKET_SYNC_1, streamIndex := 0,
    maxPacketPayloadLength := options.getD 300 }

def resetStateNB (s : ParserStateNB) : ParserStateNB :=
  { s with packetState := .PACKET_SYNC_1, packet := packetTemplateNB,
           payloadPosition := 0, packetStartFound := false }

def snapNB (p : PacketNB) : PacketSnap :=
  { cls := p.cls, id := p.id, length := p.length, payload := p.payload,
    checksum := p.checksum }

/-- One iteration of `_transform` of the non-backtracking variant. -/
def stepNB (lookup : Nat → Nat → Option Nat) (s : ParserStateNB) (b : Nat) :
    ParserStateNB × List Event :=
  if s.packetStartFound then
    match s.packetState with
    | .PACKET_SYNC_1 =>
        if b = 0x62 then
          ({ s with packetState := .PACKET_SYNC_2, streamIndex := s.streamIndex + 1 }, [])
        else if b = 0xB5 then
          ({ s with streamIndex := s.streamIndex + 1 }, [])
        else
          ({ resetStateNB s with streamIndex := s.streamIndex + 1 }, [])
    | .PACKET_SYNC_2 =>
        ({ s with packet := { s.packet with cls := b }, packetState := .PACKET_CLASS,
                  streamIndex := s.streamIndex + 1 }, [])
    | .PACKET_CLASS =>
        ({ s with packet := { s.packet with id := b }, packetState := .PACKET_ID,
                  streamIndex := s.streamIndex + 1 }, [])
    | .PACKET_ID =>
        ({ s with packet := { s.packet with length := b }, packetState := .PACKET_LENGTH,
                  streamIndex := s.streamIndex + 1 }, [])
    | .PACKET_LENGTH =>
        let p := { s.packet with length := s.packet.length + b * 256 }
        if s.maxPacketPayloadLength ≠ 0 ∧ (p.length : Int) > s.maxPacketPayloadLength then
          ({ resetStateNB s with streamIndex := s.streamIndex + 1 },
           [Event.payloadTooLarge (snapNB p) s.maxPacketPayloadLength])
        else if p.length = 0 then
          ({ s with packet := { p with payload := some [] }, packetState := .PACKET_PAYLOAD,
                    streamIndex := s.streamIndex + 1 }, [])
        else
          match lookup p.cls p.id with
          | some expected =>
              if p.length ≠ expected then
                ({ resetStateNB s with streamIndex := s.streamIndex + 1 },
                 [Event.wrongPayloadLength (snapNB p) expected])
              else
                ({ s with packet := p, packetState := .PACKET_LENGTH_2,
                          streamIndex := s.streamIndex + 1 }, [])
          | none =>
              ({ s with packet := p, packetState := .PACKET_LENGTH_2,
                        streamIndex := s.streamIndex + 1 }, [])
    | .PACKET_LENGTH_2 =>
        let pl := match s.packet.payload with
          | none => List.replicate s.packet.length 0
          | some l => l
        let pos := match s.packet.payload with
          | none => 0
          | some _ => s.payloadPosition
        let pos' := pos + 1
        ({ s with packet := { s.packet with payload := some (pl.set pos b) },
                  payloadPosition := pos',
                  packetState := if pos' ≥ s.packet.length then .PACKET_PAYLOAD
                                 else .PACKET_LENGTH_2,
                  streamIndex := s.streamIndex + 1 }, [])
    | .PACKET_PAYLOAD =>
        ({ s with packet := { s.packet with checksum := b }, packetState := .PACKET_CHECKSUM,
                  streamIndex := s.streamIndex + 1 }, [])
    | .PACKET_CHECKSUM =>
        let p := { s.packet with checksum := s.packet.checksum + b * 256 }
        let computed := calcCheckSum p.cls p.id p.length (p.payload.getD [])
        if computed = p.checksum then
          if p.length > 0 then
            ({ resetStateNB s with streamIndex := s.streamIndex + 1 },
             [Event.packet p.cls p.id (p.payload.getD [])])
          else
            ({ resetStateNB s with streamIndex := s.streamIndex + 1 },
             [Event.pollingMessage (snapNB p)])
        else
          ({ resetStateNB s with streamIndex := s.streamIndex + 1 },
           [Event.failedChecksum (snapNB p) computed])
  else
    if b = 0xB5 then
      ({ s with packetStartFound := true, packetState := .PACKET_SYNC_1,
                streamIndex := s.streamIndex + 1 }, [])
    else
      ({ s with streamIndex := s.streamIndex + 1 }, [])

/-- The `_transform` loop of the non-backtracking variant (plain fold,
no re-injection, hence structurally terminating). -/
def runNB (lookup : Nat → Nat → Option Nat) :
    ParserStateNB → List Nat → ParserStateNB × List Event
  | s, [] => (s, [])
  | s, b :: rest =>
      let r := stepNB lookup s b
      let q := runNB lookup r.1 rest
      (q.1, r.2 ++ q.2)

/-- Modelled from the spec: the external length table `packetClassIdToLength`
(imported from `./ubx`, not part of the sources) is specified only through its
interface `lookupExpectedLength(class, id) -> Optional<uint16>`; absence of an
entry means "length unconstrained".  All development is parameterised by such
a `lookup` function; `emptyLookup` is the table with no entries. -/
def emptyLookup : Nat → Nat → Option Nat := fun _ _ => none

/-- Modelled from the spec: reference Fletcher-style checksum, accumulator
loop written exactly as §4.4 describes it: for each byte `v` in order,
`a = (a + v) mod 256`, then `b = (b + a) mod 256`; result `(b << 8) | a`. -/
def fletcherSpecGo (a b : Nat) : List Nat → Nat
  | [] => (b <<< 8) ||| a
  | v :: rest =>
      let a' := (a + v) % 256
      fletcherSpecGo a' ((b + a') % 256) rest

/-- Modelled from the spec: the reference checksum over a byte sequence. -/
def fletcherSpec (bytes : List Nat) : Nat := fletcherSpecGo 0 0 bytes

/-- A length table with a single entry `(class 2, id 1) → 8`, as in the
spec's known-length test. -/
def lookupC4 : Nat → Nat → Option Nat := fun c i => if c = 2 ∧ i = 1 then some 8 else none

/-- Concrete state right before the second length byte of a `(2, 1)` frame
declaring payload length 6. -/
def sC4 : ParserStateB :=
  { packet := { packetTemplateB with cls := 2, id := 1, length1 := 6 },
    payloadPosition := 0, packetStartFound := true, packetState := .PACKET_LENGTH,
    streamIndex := 12, maxPacketPayloadLength := 300 }

/-- Concrete state right before the second checksum byte of a valid
`(3, 4)` frame with payload `[7]`. -/
def sC6 : ParserStateB :=
  { packet := { cls := 3, id := 4, length := 1, length1 := 1, length2 := 0,
                checksum1 := 15, checksum2 := 0, checksum := 0, payload := some [7] },
    payloadPosition := 1, packetStartFound := true, packetState := .PACKET_CHECKSUM,
    streamIndex := 7, maxPacketPayloadLength := 300 }

/-- Concrete state right after a sync byte, awaiting the trailer. -/
def sC7 : ParserStateB :=
  { packet := packetTemplateB, payloadPosition := 0, packetStartFound := true,
    packetState := .PACKET_SYNC_1, streamIndex := 1, maxPacketPayloadLength := 300 }

/-- Concrete decoder state awaiting the high length byte under a negative
configured maximum. -/
def sC9 : ParserStateB :=
  { packet := { packetTemplateB with cls := 3, id := 4, length1 := 1 },
    payloadPosition := 0, packetStartFound := true, packetState := .PACKET_LENGTH,
    streamIndex := 4, maxPacketPayloadLength := -1 }

/-- Recognises the diagnostic emitted by the checksum-mismatch branch;
used to state "no frame reaches the checksum comparison with a mismatch". -/
def isFailedChecksumEvent : Event → Bool
  | Event.failedChecksum _ _ => true
  | _ => false

/-- Correspondence between a non-backtracking state (`src/src/index.js`) and a
backtracking state (`src/unnamed/part_000`): all fields agree, except that the
non-backtracking variant accumulates the low length byte directly in `length`
(matched against `length1` while awaiting the high byte) and the low checksum
byte directly in `checksum` (matched against `checksum1` while awaiting the
high byte). -/
def RelNB (n : ParserStateNB) (b : ParserStateB) : Prop :=
  n.payloadPosition = b.payloadPosition ∧
  n.packetStartFound = b.packetStartFound ∧
  n.packetState = b.packetState ∧
  n.streamIndex = b.streamIndex ∧
  n.maxPacketPayloadLength = b.maxPacketPayloadLength ∧
  n.packet.cls = b.packet.cls ∧
  n.packet.id = b.packet.id ∧
  n.packet.payload = b.packet.payload ∧
  n.packet.length = (if b.packetStartFound = true ∧ b.packetState = .PACKET_LENGTH
                     then b.packet.length1 else b.packet.length) ∧
  n.packet.checksum = (if b.packetStartFound = true ∧ b.packetState = .PACKET_CHECKSUM
                       then b.packet.checksum1 else b.packet.checksum)

instance (n : ParserStateNB) (b : ParserStateB) : Decidable (RelNB n b) := by
  unfold RelNB
  exact inferInstance

lemma InvB_construct (options : Option Int) : InvB (constructB options) := by
  simp [InvB, constructB, packetTemplateB]

lemma InvB_scan (maxLen ix : Int) : InvB (scanState maxLen ix) := by
  simp [InvB, scanState, packetTemplateB]

lemma InvB_reset (s : ParserStateB) : InvB (resetStateB s) := by
  simp [InvB, resetStateB, packetTemplateB]


/-- Key step lemma: one byte step preserves the decoder invariant and strictly
decreases the fuel bound (also through a mismatch re-injection). -/
lemma stepB_spec (lookup : Nat → Nat → Option Nat) (s : ParserStateB) (b : Nat) (hs : InvB s) :
    InvB (stepB lookup s b).1 ∧
    ((stepB lookup s b).2.2 = none →
      ∀ rest, stepBound (stepB lookup s b).1 rest + 1 ≤ stepBound s (b :: rest)) ∧
    (∀ inj, (stepB lookup s b).2.2 = some inj →
      ∀ rest, stepBound (stepB lookup s b).1 (inj ++ rest) + 1 ≤ stepBound s (b :: rest)) := by
  obtain ⟨⟨c, i, L, l1, l2, k1, k2, k, pl⟩, pos, sf, st, six, mx⟩ := s
  unfold InvB at hs
  simp only at hs
  cases sf with
  | false =>
    have hst : st = .PACKET_SYNC_1 := hs.1 rfl
    subst hst
    simp only at hs
    obtain ⟨-, hpl, hpos⟩ := hs
    subst hpl hpos
    by_cases hb : b = 0xB5
    · refine ⟨by simp [stepB, hb, InvB], fun _ rest => ?_, by simp [stepB, hb]⟩
      simp [stepB, hb, stepBound, frameBytes, inFrameFlag]
      nlinarith [Nat.zero_le rest.length]
    · refine ⟨by simp [stepB, hb, InvB], fun _ rest => ?_, by simp [stepB, hb]⟩
      simp [stepB, hb, stepBound, frameBytes, inFrameFlag]
      nlinarith [Nat.zero_le rest.length]
  | true =>
    cases st with
    | PACKET_SYNC_1 =>
      simp only at hs
      obtain ⟨-, hpl, hpos⟩ := hs
      subst hpl hpos
      by_cases hb : b = 0x62
      · refine ⟨by simp [stepB, hb, InvB], fun _ rest => ?_, by simp [stepB, hb]⟩
        simp [stepB, hb, stepBound, frameBytes, inFrameFlag]
        nlinarith [Nat.zero_le rest.length]
      · by_cases hb' : b = 0xB5
        · refine ⟨by simp [stepB, hb, hb', InvB], fun _ rest => ?_, by simp [stepB, hb, hb']⟩
          simp [stepB, hb, hb', stepBound, frameBytes, inFrameFlag]
          nlinarith [Nat.zero_le rest.length]
        · refine ⟨by simp [stepB, hb, hb', InvB, resetStateB, packetTemplateB],
            fun _ rest => ?_, by simp [stepB, hb, hb']⟩
          simp [stepB, hb, hb', stepBound, frameBytes, inFrameFlag, resetStateB, packetTemplateB]
          nlinarith [Nat.zero_le rest.length]
    | PACKET_SYNC_2 =>
      simp only at hs
      obtain ⟨-, hpl, hpos⟩ := hs
      subst hpl hpos
      refine ⟨by simp [stepB, InvB], fun _ rest => ?_, by simp [stepB]⟩
      simp [stepB, stepBound, frameBytes, inFrameFlag]
      nlinarith [Nat.zero_le rest.length]
    | PACKET_CLASS =>
      simp only at hs
      obtain ⟨-, hpl, hpos⟩ := hs
      subst hpl hpos
      refine ⟨by simp [stepB, InvB], fun _ rest => ?_, by simp [stepB]⟩
      simp [stepB, stepBound, frameBytes, inFrameFlag]
      nlinarith [Nat.zero_le rest.length]
    | PACKET_ID =>
      simp only at hs
      obtain ⟨-, hpl, hpos⟩ := hs
      subst hpl hpos
      refine ⟨by simp [stepB, InvB], fun _ rest => ?_, by simp [stepB]⟩
      simp [stepB, stepBound, frameBytes, inFrameFlag]
      nlinarith [Nat.zero_le rest.length]
    | PACKET_LENGTH =>
      simp only at hs
      obtain ⟨-, hpl, hpos⟩ := hs
      subst hpl hpos
      cases hlk : lookup c i with
      | none =>
        refine ⟨?_, fun _ rest => ?_, ?_⟩
        · simp [stepB, hlk]
          split_ifs <;> simp [InvB, resetStateB, packetTemplateB] <;> omega
        · simp [stepB, hlk, stepBound, frameBytes, inFrameFlag, resetStateB, packetTemplateB]
          split_ifs <;>
            simp [stepBound, frameBytes, inFrameFlag, resetStateB, packetTemplateB] <;>
            nlinarith [Nat.zero_le rest.length]
        · simp [stepB, hlk]
          split_ifs <;> simp
      | some expected =>
        refine ⟨?_, fun _ rest => ?_, ?_⟩
        · simp [stepB, hlk]
          split_ifs <;> simp [InvB, resetStateB, packetTemplateB] <;> omega
        · simp [stepB, hlk, stepBound, frameBytes, inFrameFlag, resetStateB, packetTemplateB]
          split_ifs <;>
            simp [stepBound, frameBytes, inFrameFlag, resetStateB, packetTemplateB] <;>
            nlinarith [Nat.zero_le rest.length]
        · simp [stepB, hlk]
          split_ifs <;> simp
    | PACKET_LENGTH_2 =>
      simp only at hs
      obtain ⟨-, hlt, hpl⟩ := hs
      cases pl with
      | none =>
        simp only at hpl
        subst hpl
        refine ⟨?_, fun _ rest => ?_, ?_⟩
        · simp [stepB]
          split_ifs <;> simp [InvB] <;> omega
        · simp [stepB, stepBound, frameBytes, inFrameFlag]
          split_ifs <;>
            simp [stepBound, frameBytes, inFrameFlag] <;>
            nlinarith [Nat.zero_le rest.length, hlt]
        · simp [stepB]
      | some l =>
        simp only at hpl
        refine ⟨?_, fun _ rest => ?_, ?_⟩
        · simp [stepB]
          split_ifs <;> simp [InvB] <;> omega
        · simp [stepB, stepBound, frameBytes, inFrameFlag]
          split_ifs <;>
            simp [stepBound, frameBytes, inFrameFlag] <;>
            nlinarith [Nat.zero_le rest.length, hlt, hpl.ge, hpl.le]
        · simp [stepB]
    | PACKET_PAYLOAD =>
      simp only at hs
      obtain ⟨-, hpos, hpl⟩ := hs
      cases pl with
      | none => simp only at hpl
      | some l =>
        simp only at hpl
        refine ⟨by simp [stepB, InvB]; omega, fun _ rest => ?_, by simp [stepB]⟩
        simp [stepB, stepBound, frameBytes, inFrameFlag]
        nlinarith [Nat.zero_le rest.length]
    | PACKET_CHECKSUM =>
      simp only at hs
      obtain ⟨-, hpos, hpl⟩ := hs
      cases pl with
      | none => simp only at hpl
      | some l =>
        simp only at hpl
        by_cases hck : calcCheckSum c i L l = k1 + b * 256
        · by_cases hz : 0 < L
          · refine ⟨by simp [stepB, hck, hz, InvB, resetStateB, packetTemplateB],
              fun _ rest => ?_, by simp [stepB, hck, hz]⟩
            simp [stepB, hck, hz, stepBound, frameBytes, inFrameFlag, resetStateB, packetTemplateB]
            nlinarith [Nat.zero_le rest.length, Nat.zero_le l.length]
          · refine ⟨by simp [stepB, hck, hz, InvB, resetStateB, packetTemplateB],
              fun _ rest => ?_, by simp [stepB, hck, hz]⟩
            simp [stepB, hck, hz, stepBound, frameBytes, inFrameFlag, resetStateB, packetTemplateB]
            nlinarith [Nat.zero_le rest.length, Nat.zero_le l.length]
        · refine ⟨by simp [stepB, hck, InvB, resetStateB, packetTemplateB],
            by simp [stepB, hck], fun inj hinj rest => ?_⟩
          simp [stepB, hck] at hinj
          subst hinj
          simp [stepB, hck, stepBound, frameBytes, inFrameFlag, resetStateB, reinjectBytes,
            packetTemplateB]
          nlinarith [Nat.zero_le rest.length, Nat.zero_le l.length]

/-- More fuel never changes a completed run. -/
lemma runB_mono (lookup : Nat → Nat → Option Nat) :
    ∀ (fuel k : Nat) (s : ParserStateB) (d : List Nat) (r : ParserStateB × List Event),
      runB lookup fuel s d = some r → runB lookup (fuel + k) s d = some r := by
  intro fuel
  induction fuel with
  | zero => intro k s d r h; simp [runB] at h
  | succ fuel ih =>
    intro k s d r h
    rw [show fuel + 1 + k = (fuel + k) + 1 from by omega]
    cases d with
    | nil => simpa [runB] using h
    | cons b rest =>
      simp only [runB] at h ⊢
      cases hstep : (stepB lookup s b).2.2 with
      | none =>
        simp only [hstep] at h ⊢
        cases hq : runB lookup fuel (stepB lookup s b).1 rest with
        | none => rw [hq] at h; simp at h
        | some q => rw [hq] at h; rw [ih k _ _ q hq]; exact h
      | some inj =>
        simp only [hstep] at h ⊢
        cases hq : runB lookup fuel (stepB lookup s b).1 (inj ++ rest) with
        | none => rw [hq] at h; simp at h
        | some q => rw [hq] at h; rw [ih k _ _ q hq]; exact h

/-- The fuel bound `stepBound` is sufficient: processing always completes and
preserves the invariant. -/
lemma runB_total (lookup : Nat → Nat → Option Nat) :
    ∀ (fuel : Nat) (s : ParserStateB) (d : List Nat), InvB s → stepBound s d ≤ fuel →
      ∃ r, runB lookup fuel s d = some r ∧ InvB r.1 := by
  intro fuel
  induction fuel with
  | zero => intro s d _ hb; exact ((Nat.not_succ_le_zero _) hb).elim
  | succ fuel ih =>
    intro s d hs hb
    cases d with
    | nil => exact ⟨(s, []), by simp [runB], hs⟩
    | cons b rest =>
      obtain ⟨hInv, hnone, hsome⟩ := stepB_spec lookup s b hs
      cases hstep : (stepB lookup s b).2.2 with
      | none =>
        have hdec := hnone hstep rest
        obtain ⟨r, hr, hrI⟩ := ih (stepB lookup s b).1 rest hInv (by omega)
        exact ⟨(r.1, (stepB lookup s b).2.1 ++ r.2), by simp [runB, hstep, hr], hrI⟩
      | some inj =>
        have hdec := hsome inj hstep rest
        obtain ⟨r, hr, hrI⟩ := ih (stepB lookup s b).1 (inj ++ rest) hInv (by omega)
        exact ⟨(r.1, (stepB lookup s b).2.1 ++ r.2), by simp [runB, hstep, hr], hrI⟩

/-- Completed runs compose over list append (chunking invariance at the
fuel level). -/
lemma runB_append (lookup : Nat → Nat → Option Nat) :
    ∀ (f1 : Nat) (s : ParserStateB) (xs : List Nat) (s1 : ParserStateB) (e1 : List Event),
      runB lookup f1 s xs = some (s1, e1) →
      ∀ (f2 : Nat) (ys : List Nat) (s2 : ParserStateB) (e2 : List Event),
        runB lookup f2 s1 ys = some (s2, e2) →
        runB lookup (f1 + f2) s (xs ++ ys) = some (s2, e1 ++ e2) := by
  intro f1
  induction f1 with
  | zero => intro s xs s1 e1 h; simp [runB] at h
  | succ f1 ih =>
    intro s xs s1 e1 h f2 ys s2 e2 h2
    cases xs with
    | nil =>
      simp [runB] at h
      obtain ⟨rfl, rfl⟩ := h
      rw [show f1 + 1 + f2 = f2 + (f1 + 1) from by omega]
      simpa using runB_mono lookup f2 (f1 + 1) s ys (s2, e2) h2
    | cons b rest =>
      rw [show f1 + 1 + f2 = (f1 + f2) + 1 from by omega]
      simp only [runB, List.cons_append, List.append_eq] at h ⊢
      cases hstep : (stepB lookup s b).2.2 with
      | none =>
        simp only [hstep] at h ⊢
        cases hq : runB lookup f1 (stepB lookup s b).1 rest with
        | none => rw [hq] at h; simp at h
        | some q =>
          obtain ⟨qs, qe⟩ := q
          rw [hq] at h
          simp only [Option.map_some', Option.some.injEq, Prod.mk.injEq] at h
          obtain ⟨rfl, rfl⟩ := h
          rw [ih _ rest qs qe hq f2 ys s2 e2 h2]
          simp
      | some inj =>
        simp only [hstep] at h ⊢
        cases hq : runB lookup f1 (stepB lookup s b).1 (inj ++ rest) with
        | none => rw [hq] at h; simp at h
        | some q =>
          obtain ⟨qs, qe⟩ := q
          rw [hq] at h
          simp only [Option.map_some', Option.some.injEq, Prod.mk.injEq] at h
          obtain ⟨rfl, rfl⟩ := h
          rw [← List.append_assoc]
          rw [ih _ (inj ++ rest) qs qe hq f2 ys s2 e2 h2]
          simp

/-- Any completed run determines `processB` (fuel does not matter). -/
lemma processB_eq (lookup : Nat → Nat → Option Nat) (s : ParserStateB) (d : List Nat)
    (r : ParserStateB × List Event) (hs : InvB s) (f : Nat)
    (h : runB lookup f s d = some r) : processB lookup s d = r := by
  obtain ⟨r', hr', -⟩ := runB_total lookup (stepBound s d) s d hs (Nat.le_refl _)
  have h1 := runB_mono lookup f (stepBound s d) s d r h
  have h2 := runB_mono lookup (stepBound s d) f s d r' hr'
  rw [Nat.add_comm] at h2
  rw [h1] at h2
  injection h2 with h3
  subst h3
  simp [processB, hr']

/-- `processB` is the unique completed run from an invariant state. -/
lemma processB_run (lookup : Nat → Nat → Option Nat) (s : ParserStateB) (d : List Nat)
    (hs : InvB s) :
    runB lookup (stepBound s d) s d = some (processB lookup s d) ∧
    InvB (processB lookup s d).1 := by
  obtain ⟨r, hr, hI⟩ := runB_total lookup (stepBound s d) s d hs (Nat.le_refl _)
  have := processB_eq lookup s d r hs _ hr
  rw [this]
  exact ⟨hr, hI⟩

/-- Chunk splitting: processing `xs ++ ys` equals processing `xs`, then `ys`
from the resulting state, concatenating the emitted events. -/
lemma processB_append (lookup : Nat → Nat → Option Nat) (s : ParserStateB)
    (xs ys : List Nat) (hs : InvB s) :
    processB lookup s (xs ++ ys) =
      ((processB lookup (processB lookup s xs).1 ys).1,
       (processB lookup s xs).2 ++ (processB lookup (processB lookup s xs).1 ys).2) := by
  obtain ⟨hr1, hI1⟩ := processB_run lookup s xs hs
  obtain ⟨hr2, hI2⟩ := processB_run lookup (processB lookup s xs).1 ys hI1
  have happ := runB_append lookup _ s xs (processB lookup s xs).1 (processB lookup s xs).2
    hr1 _ ys (processB lookup (processB lookup s xs).1 ys).1
    (processB lookup (processB lookup s xs).1 ys).2 hr2
  exact processB_eq lookup s (xs ++ ys) _ hs _ happ

lemma processB_nil (lookup : Nat → Nat → Option Nat) (s : ParserStateB) (hs : InvB s) :
    processB lookup s [] = (s, []) :=
  processB_eq lookup s [] (s, []) hs 1 rfl

lemma processChunksB_join (lookup : Nat → Nat → Option Nat) :
    ∀ (chunks : List (List Nat)) (s : ParserStateB) (acc : List Event), InvB s →
      chunks.foldl (fun acc c =>
          let r := processB lookup acc.1 c
          (r.1, acc.2 ++ r.2)) (s, acc)
        = ((processB lookup s chunks.flatten).1, acc ++ (processB lookup s chunks.flatten).2) := by
  intro chunks
  induction chunks with
  | nil =>
    intro s acc hs
    simp [List.flatten, processB_nil lookup s hs]
  | cons c cs ih =>
    intro s acc hs
    obtain ⟨-, hI⟩ := processB_run lookup s c hs
    simp only [List.foldl_cons]
    rw [ih (processB lookup s c).1 (acc ++ (processB lookup s c).2) hI]
    rw [show (c :: cs).flatten = c ++ cs.flatten from by simp]
    rw [processB_append lookup s c cs.flatten hs]
    simp

/-- C2: chunking invariance.  Feeding the stream in arbitrarily split chunks
yields exactly the same final state and ordered event sequence as feeding the
concatenated bytes in one call. -/
theorem claimC2_chunking_invariance (lookup : Nat → Nat → Option Nat)
    (options : Option Int) (chunks : List (List Nat)) :
    processChunksB lookup (constructB options) chunks
      = processB lookup (constructB options) chunks.flatten := by
  unfold processChunksB
  rw [processChunksB_join lookup chunks (constructB options) [] (InvB_construct options)]
  simp

lemma fletcherSpecGo_foldl : ∀ (l : List Nat) (a b : Nat),
    fletcherSpecGo a b l =
      ((l.foldl (fun (ab : Nat × Nat) v =>
          let x := (ab.1 + v) % 256
          (x, (ab.2 + x) % 256)) (a, b)).2 <<< 8) |||
      (l.foldl (fun (ab : Nat × Nat) v =>
          let x := (ab.1 + v) % 256
          (x, (ab.2 + x) % 256)) (a, b)).1 := by
  intro l
  induction l with
  | nil => intro a b; simp [fletcherSpecGo]
  | cons v rest ih => intro a b; simp only [fletcherSpecGo, List.foldl_cons]; exact ih _ _

/-- C3: the computed checksum is exactly the spec's two-accumulator
Fletcher-style sum over `[class, id, lengthLow, lengthHigh, payload...]`,
a pure function of the frame fields, and the checksum branch of the decoder
compares it against the little-endian combination of the two received
checksum bytes. -/
theorem claimC3_checksum :
    (∀ (messageClass id length : Nat) (payload : List Nat),
      messageClass < 256 → id < 256 → length < 65536 →
      calcCheckSum messageClass id length payload
        = fletcherSpec (messageClass :: id :: length % 256 :: length / 256 :: payload)) ∧
    (∀ (lookup : Nat → Nat → Option Nat) (s : ParserStateB) (b : Nat),
      s.packetStartFound = true → s.packetState = .PACKET_CHECKSUM →
      ((stepB lookup s b).2.2 = none ↔
        calcCheckSum s.packet.cls s.packet.id s.packet.length (s.packet.payload.getD [])
          = s.packet.checksum1 + b * 256)) := by
  constructor
  · intro c i L payload hc hi hL
    have hc' : c % 256 = c := Nat.mod_eq_of_lt hc
    have hi' : i % 256 = i := Nat.mod_eq_of_lt hi
    have hdiv : L / 256 < 256 := by omega
    have hdiv' : L / 256 % 256 = L / 256 := Nat.mod_eq_of_lt hdiv
    rw [fletcherSpec, fletcherSpecGo_foldl]
    simp only [calcCheckSum, List.cons_append, List.nil_append, hc', hi', hdiv']
  · intro lookup s b hsf hst
    obtain ⟨⟨c, i, L, l1, l2, k1, k2, k, pl⟩, pos, sf, st, six, mx⟩ := s
    simp only at hsf hst
    subst hsf hst
    by_cases hck : calcCheckSum c i L (pl.getD []) = k1 + b * 256
    · simp [stepB, hck]
      split_ifs <;> simp
    · simp [stepB, hck]

/-- C4: the validator decision at the moment the second length byte arrives:
(1) the size check fires first when the configured maximum is nonzero and
exceeded; (2) otherwise a zero length skips payload accumulation (never
consulting the table); (3) otherwise a conflicting table entry rejects the
frame; (4) otherwise assembly proceeds to payload accumulation.  Moreover the
two validator diagnostics can only ever be emitted from that state. -/
theorem claimC4_validator :
    (∀ (lookup : Nat → Nat → Option Nat) (s : ParserStateB) (b : Nat),
      s.packetStartFound = true → s.packetState = .PACKET_LENGTH →
      ((s.maxPacketPayloadLength ≠ 0 ∧
          ((s.packet.length1 + b * 256 : Nat) : Int) > s.maxPacketPayloadLength →
        stepB lookup s b = ({ resetStateB s with streamIndex := s.streamIndex + 1 },
          [Event.payloadTooLarge
            (snapB { s.packet with
                       length2 := b, length := s.packet.length1 + b * 256 })
            s.maxPacketPayloadLength], none)) ∧
      (¬(s.maxPacketPayloadLength ≠ 0 ∧
          ((s.packet.length1 + b * 256 : Nat) : Int) > s.maxPacketPayloadLength) →
        s.packet.length1 + b * 256 = 0 →
        stepB lookup s b = ({ s with
          packet := { s.packet with
                        length2 := b, length := s.packet.length1 + b * 256,
                        payload := some [] },
          packetState := .PACKET_PAYLOAD, streamIndex := s.streamIndex + 1 }, [], none)) ∧
      (¬(s.maxPacketPayloadLength ≠ 0 ∧
          ((s.packet.length1 + b * 256 : Nat) : Int) > s.maxPacketPayloadLength) →
        s.packet.length1 + b * 256 ≠ 0 →
        ∀ e, lookup s.packet.cls s.packet.id = some e → s.packet.length1 + b * 256 ≠ e →
        stepB lookup s b = ({ resetStateB s with streamIndex := s.streamIndex + 1 },
          [Event.wrongPayloadLength
            (snapB { s.packet with
                       length2 := b, length := s.packet.length1 + b * 256 })
            e], none)) ∧
      (¬(s.maxPacketPayloadLength ≠ 0 ∧
          ((s.packet.length1 + b * 256 : Nat) : Int) > s.maxPacketPayloadLength) →
        s.packet.length1 + b * 256 ≠ 0 →
        (lookup s.packet.cls s.packet.id = none ∨
          lookup s.packet.cls s.packet.id = some (s.packet.length1 + b * 256)) →
        stepB lookup s b = ({ s with
          packet := { s.packet with
                        length2 := b, length := s.packet.length1 + b * 256 },
          packetState := .PACKET_LENGTH_2, streamIndex := s.streamIndex + 1 }, [], none)))) ∧
    (∀ (lookup : Nat → Nat → Option Nat) (s : ParserStateB) (b : Nat) (e : Event),
      e ∈ (stepB lookup s b).2.1 →
      ((∃ ps m, e = Event.payloadTooLarge ps m) ∨ (∃ ps x, e = Event.wrongPayloadLength ps x)) →
      s.packetStartFound = true ∧ s.packetState = .PACKET_LENGTH) := by
  constructor
  · intro lookup s b hsf hst
    obtain ⟨⟨c, i, L, l1, l2, k1, k2, k, pl⟩, pos, sf, st, six, mx⟩ := s
    simp only at hsf hst ⊢
    subst hsf hst
    refine ⟨fun h1 => ?_, fun h1 h2 => ?_, fun h1 h2 e hlk h3 => ?_, fun h1 h2 hlk => ?_⟩
    · have h1a := h1.1
      have h1b : mx < (l1 : Int) + (b : Int) * 256 := by
        have := h1.2
        push_cast at this
        omega
      simp [stepB, h1a, h1b]
    · have h1' : ¬(mx ≠ 0 ∧ mx < (l1 : Int) + (b : Int) * 256) := by
        push_cast at h1
        tauto
      have h2' : l1 = 0 ∧ b = 0 := by omega
      obtain ⟨rfl, rfl⟩ := h2'
      simp [stepB, h1']
      omega
    · have h1' : ¬(mx ≠ 0 ∧ mx < (l1 : Int) + (b : Int) * 256) := by
        push_cast at h1
        tauto
      have h2' : ¬(l1 = 0 ∧ b = 0) := by omega
      simp [stepB, h1', h2', hlk, h3]
    · have h1' : ¬(mx ≠ 0 ∧ mx < (l1 : Int) + (b : Int) * 256) := by
        push_cast at h1
        tauto
      have h2' : ¬(l1 = 0 ∧ b = 0) := by omega
      rcases hlk with hlk | hlk <;> simp [stepB, h1', h2', hlk]
  · intro lookup s b e hmem hshape
    obtain ⟨⟨c, i, L, l1, l2, k1, k2, k, pl⟩, pos, sf, st, six, mx⟩ := s
    cases sf <;> cases st <;>
      first
        | exact ⟨rfl, rfl⟩
        | (rcases hshape with ⟨ps, m, rfl⟩ | ⟨ps, x, rfl⟩ <;>
            simp only [stepB] at hmem <;> (try split_ifs at hmem) <;> simp_all)

/-- C6: on a matching checksum, a zero-length frame yields the
`PollingMessage` diagnostic and never a data packet, while a frame with
payload yields exactly one `Packet{class, id, payload}` on the data channel;
both reset the frame afterwards. -/
theorem claimC6_match_emission (lookup : Nat → Nat → Option Nat) (s : ParserStateB) (b : Nat)
    (l : List Nat) (hsf : s.packetStartFound = true) (hst : s.packetState = .PACKET_CHECKSUM)
    (hpl : s.packet.payload = some l)
    (hck : calcCheckSum s.packet.cls s.packet.id s.packet.length l
            = s.packet.checksum1 + b * 256) :
    (s.packet.length = 0 →
      stepB lookup s b = ({ resetStateB s with streamIndex := s.streamIndex + 1 },
        [Event.pollingMessage
          { cls := s.packet.cls, id := s.packet.id, length := s.packet.length,
            payload := some l, checksum := s.packet.checksum1 + b * 256 }], none)) ∧
    (0 < s.packet.length →
      stepB lookup s b = ({ resetStateB s with streamIndex := s.streamIndex + 1 },
        [Event.packet s.packet.cls s.packet.id l], none)) := by
  obtain ⟨⟨c, i, L, l1, l2, k1, k2, k, pl⟩, pos, sf, st, six, mx⟩ := s
  simp only at hsf hst hpl hck ⊢
  subst hsf hst hpl
  constructor
  · intro hz
    subst hz
    simp [stepB, hck, snapB]
  · intro hz
    simp [stepB, hck, snapB, Nat.pos_iff_ne_zero.mp hz]

/-- C7: scanner behavior.  While expecting the sync trailer, `0x62` advances
into field assembly, a repeated `0xB5` stays in the same expecting-trailer
state, and any other byte aborts the nascent frame back to scanning,
consuming exactly that one byte; while idle, any non-`0xB5` byte is silently
discarded. -/
theorem claimC7_sync_trailer (lookup : Nat → Nat → Option Nat) (s : ParserStateB) (b : Nat) :
    (s.packetStartFound = true → s.packetState = .PACKET_SYNC_1 →
      (stepB lookup s 0x62
          = ({ s with packetState := .PACKET_SYNC_2, streamIndex := s.streamIndex + 1 },
             [], none)) ∧
      (stepB lookup s 0xB5 = ({ s with streamIndex := s.streamIndex + 1 }, [], none)) ∧
      (b ≠ 0x62 → b ≠ 0xB5 →
        stepB lookup s b
          = ({ resetStateB s with streamIndex := s.streamIndex + 1 }, [], none))) ∧
    (s.packetStartFound = false → b ≠ 0xB5 →
      stepB lookup s b = ({ s with streamIndex := s.streamIndex + 1 }, [], none)) := by
  obtain ⟨⟨c, i, L, l1, l2, k1, k2, k, pl⟩, pos, sf, st, six, mx⟩ := s
  constructor
  · intro hsf hst
    simp only at hsf hst
    subst hsf hst
    refine ⟨by simp [stepB], by simp [stepB], fun hb1 hb2 => by simp [stepB, hb1, hb2]⟩
  · intro hsf hb
    simp only at hsf
    subst hsf
    simp [stepB, hb]

/-- C8: data-model invariants.  The invariant is preserved by every step; it
gives `payloadPosition ≤ length` at all times and confines a non-null payload
to the states past length validation; and every terminal transition
(successful or polling emission, checksum mismatch, validator rejection, or
stream end via `_flush`) resets the whole frame-in-progress. -/
theorem claimC8_invariants :
    (∀ (lookup : Nat → Nat → Option Nat) (s : ParserStateB) (b : Nat),
      InvB s → InvB (stepB lookup s b).1) ∧
    (∀ s : ParserStateB, InvB s → s.payloadPosition ≤ s.packet.length) ∧
    (∀ s : ParserStateB, InvB s → s.packet.payload ≠ none →
      s.packetState = .PACKET_LENGTH_2 ∨ s.packetState = .PACKET_PAYLOAD ∨
        s.packetState = .PACKET_CHECKSUM) ∧
    (∀ (lookup : Nat → Nat → Option Nat) (s : ParserStateB) (b : Nat),
      s.packetStartFound = true → s.packetState = .PACKET_CHECKSUM →
      (stepB lookup s b).1.packet = packetTemplateB ∧
      (stepB lookup s b).1.payloadPosition = 0 ∧
      (stepB lookup s b).1.packetStartFound = false ∧
      (stepB lookup s b).1.packetState = .PACKET_SYNC_1) ∧
    (∀ (lookup : Nat → Nat → Option Nat) (s : ParserStateB) (b : Nat),
      s.packetStartFound = true → s.packetState = .PACKET_LENGTH →
      (stepB lookup s b).2.1 ≠ [] →
      (stepB lookup s b).1.packet = packetTemplateB ∧
      (stepB lookup s b).1.payloadPosition = 0 ∧
      (stepB lookup s b).1.packetStartFound = false ∧
      (stepB lookup s b).1.packetState = .PACKET_SYNC_1) ∧
    (∀ s : ParserStateB, (flushB s).packet = packetTemplateB ∧
      (flushB s).payloadPosition = 0 ∧ (flushB s).packetStartFound = false ∧
      (flushB s).packetState = .PACKET_SYNC_1) := by
  refine ⟨fun lookup s b hs => (stepB_spec lookup s b hs).1, ?_, ?_, ?_, ?_, ?_⟩
  · intro s hs
    obtain ⟨⟨c, i, L, l1, l2, k1, k2, k, pl⟩, pos, sf, st, six, mx⟩ := s
    have h2 := hs.2
    dsimp only at h2 ⊢
    cases st <;> cases pl <;> (try simp at h2) <;> omega
  · intro s hs hne
    obtain ⟨⟨c, i, L, l1, l2, k1, k2, k, pl⟩, pos, sf, st, six, mx⟩ := s
    unfold InvB at hs
    cases st <;> simp only at hs hne ⊢ <;> simp_all
  · intro lookup s b hsf hst
    obtain ⟨⟨c, i, L, l1, l2, k1, k2, k, pl⟩, pos, sf, st, six, mx⟩ := s
    simp only at hsf hst
    subst hsf hst
    by_cases hck : calcCheckSum c i L (pl.getD []) = k1 + b * 256 <;>
      [(simp [stepB, hck, resetStateB]; split_ifs <;> simp);
       simp [stepB, hck, resetStateB]]
  · intro lookup s b hsf hst hne
    obtain ⟨⟨c, i, L, l1, l2, k1, k2, k, pl⟩, pos, sf, st, six, mx⟩ := s
    simp only at hsf hst hne ⊢
    subst hsf hst
    by_cases h1 : mx ≠ 0 ∧ ((l1 + b * 256 : Nat) : Int) > mx
    · have h1a := h1.1
      have h1b : mx < (l1 : Int) + (b : Int) * 256 := by
        have := h1.2
        push_cast at this
        omega
      simp [stepB, h1a, h1b, resetStateB]
    · have h1' : ¬(mx ≠ 0 ∧ mx < (l1 : Int) + (b : Int) * 256) := by
        push_cast at h1
        tauto
      by_cases h2 : l1 + b * 256 = 0
      · exfalso
        apply hne
        have h2' : l1 = 0 ∧ b = 0 := by omega
        obtain ⟨rfl, rfl⟩ := h2'
        have hfix : ¬(¬mx = 0 ∧ mx < 0) := by
          push_cast at h1
          omega
        simp [stepB, hfix]
      · have h2' : ¬(l1 = 0 ∧ b = 0) := by omega
        cases hlk : lookup c i with
        | none =>
          exfalso
          apply hne
          simp [stepB, h1', h2', hlk]
        | some expected =>
          by_cases h3 : l1 + b * 256 = expected
          · subst h3
            exfalso
            apply hne
            simp [stepB, h1', h2', hlk]
          · simp [stepB, h1', h2', hlk, h3, resetStateB]
  · intro s
    simp [flushB, resetStateB]


theorem claimC3_checksum_witness :
    ((3:Nat) < 256 ∧ (4:Nat) < 256 ∧ (1:Nat) < 65536 ∧
      calcCheckSum 3 4 1 [7] = fletcherSpec [3, 4, 1, 0, 7]) ∧
    ((stepB emptyLookup sC6 41).2.2 = none ↔ calcCheckSum 3 4 1 [7] = 15 + 41 * 256) :=
  ⟨⟨by decide, by decide, by decide,
     claimC3_checksum.1 3 4 1 [7] (by decide) (by decide) (by decide)⟩,
   claimC3_checksum.2 emptyLookup sC6 41 rfl rfl⟩

theorem claimC4_validator_witness :
    (lookupC4 2 1 = some 8 ∧ (6:Nat) + 0 * 256 ≠ 8) ∧
    stepB lookupC4 sC4 0
      = ({ resetStateB sC4 with streamIndex := sC4.streamIndex + 1 },
         [Event.wrongPayloadLength
           (snapB { sC4.packet with
                      length2 := 0, length := sC4.packet.length1 + 0 * 256 }) 8],
         none) :=
  ⟨⟨by decide, by decide⟩,
   (claimC4_validator.1 lookupC4 sC4 0 rfl rfl).2.2.1 (by decide) (by decide) 8 (by decide)
     (by decide)⟩

theorem claimC6_match_emission_witness :
    calcCheckSum 3 4 1 [7] = 15 + 41 * 256 ∧
    stepB emptyLookup sC6 41
      = ({ resetStateB sC6 with streamIndex := sC6.streamIndex + 1 },
         [Event.packet 3 4 [7]], none) :=
  ⟨by decide,
   (claimC6_match_emission emptyLookup sC6 41 [7] rfl rfl rfl (by decide)).2 (by decide)⟩

theorem claimC7_sync_trailer_witness :
    ((7:Nat) ≠ 0x62 ∧ (7:Nat) ≠ 0xB5) ∧
    stepB emptyLookup sC7 7
      = ({ resetStateB sC7 with streamIndex := sC7.streamIndex + 1 }, [], none) :=
  ⟨⟨by decide, by decide⟩,
   ((claimC7_sync_trailer emptyLookup sC7 7).1 rfl rfl).2.2 (by decide) (by decide)⟩

theorem claimC8_invariants_witness :
    InvB (constructB none) ∧ InvB (stepB emptyLookup (constructB none) 0xB5).1 :=
  ⟨by decide, claimC8_invariants.1 emptyLookup (constructB none) 0xB5 (by decide)⟩

/-- C5 (amended): processing any finite chunk terminates (the explicit fuel
bound always suffices from a constructed decoder), and the checksum-failure
backtracking re-examines exactly `length + 6` bytes per failed frame — the
re-injected sequence `[class, id, lengthLow, lengthHigh, payload...,
checksumLow, checksumHigh]` — not `length + 4` as claimed. -/
theorem claimC5_termination :
    (∀ (lookup : Nat → Nat → Option Nat) (options : Option Int) (d : List Nat),
      ∃ r, runB lookup (stepBound (constructB options) d) (constructB options) d = some r) ∧
    (∀ (p : PacketB) (l : List Nat), p.payload = some l →
      (reinjectBytes p).length = l.length + 6) := by
  constructor
  · intro lookup options d
    obtain ⟨r, hr, -⟩ := runB_total lookup (stepBound _ d) (constructB options) d
      (InvB_construct options) (Nat.le_refl _)
    exact ⟨r, hr⟩
  · intro p l hpl
    simp [reinjectBytes, hpl]

theorem claimC5_termination_witness :
    (∃ r, runB emptyLookup (stepBound (constructB none) [0xB5]) (constructB none) [0xB5]
      = some r) ∧
    (reinjectBytes sC6.packet).length = 1 + 6 :=
  ⟨claimC5_termination.1 emptyLookup none [0xB5],
   claimC5_termination.2 sC6.packet [7] rfl⟩

/-- C5 counterexample: a mismatching frame with payload length 1 re-injects
7 = length + 6 bytes, exceeding the claimed bound length + 4 = 5. -/
theorem claimC5_counterexample :
    (stepB emptyLookup sC6 0).2.2 = some [3, 4, 1, 0, 7, 15, 0] ∧
    sC6.packet.length = 1 ∧
    ¬(([3, 4, 1, 0, 7, 15, 0] : List Nat).length ≤ sC6.packet.length + 4) := by
  decide

/-- C9 (amended): the constructor stores any numeric `maxPacketPayloadLength`
— including a negative one — without validation, so the contract violation is
not reported at construction; during decoding a negative maximum makes the
size check reject every frame with `PayloadTooLarge`; and decoding any input
from any configuration completes (no unrecoverable error). -/
theorem claimC9_construction :
    (∀ m : Int, constructB (some m)
      = { packet := packetTemplateB, payloadPosition := 0, packetStartFound := false,
          packetState := .PACKET_SYNC_1, streamIndex := 0, maxPacketPayloadLength := m }) ∧
    (∀ (lookup : Nat → Nat → Option Nat) (s : ParserStateB) (b : Nat),
      s.packetStartFound = true → s.packetState = .PACKET_LENGTH →
      s.maxPacketPayloadLength < 0 →
      stepB lookup s b = ({ resetStateB s with streamIndex := s.streamIndex + 1 },
        [Event.payloadTooLarge
          (snapB { s.packet with
                     length2 := b, length := s.packet.length1 + b * 256 })
          s.maxPacketPayloadLength], none)) ∧
    (∀ (lookup : Nat → Nat → Option Nat) (options : Option Int) (d : List Nat),
      ∃ r, runB lookup (stepBound (constructB options) d) (constructB options) d = some r) := by
  refine ⟨fun m => rfl, ?_, ?_⟩
  · intro lookup s b hsf hst hneg
    obtain ⟨⟨c, i, L, l1, l2, k1, k2, k, pl⟩, pos, sf, st, six, mx⟩ := s
    simp only at hsf hst hneg ⊢
    subst hsf hst
    have h1a : mx ≠ 0 := by omega
    have h1b : mx < (l1 : Int) + (b : Int) * 256 := by
      have : (0 : Int) ≤ (l1 : Int) := Int.natCast_nonneg l1
      have : (0 : Int) ≤ (b : Int) := Int.natCast_nonneg b
      nlinarith
    simp [stepB, h1a, h1b]
  · intro lookup options d
    obtain ⟨r, hr, -⟩ := runB_total lookup (stepBound _ d) (constructB options) d
      (InvB_construct options) (Nat.le_refl _)
    exact ⟨r, hr⟩


theorem claimC9_construction_witness :
    ((-1 : Int) < 0) ∧
    stepB emptyLookup sC9 0
      = ({ resetStateB sC9 with streamIndex := sC9.streamIndex + 1 },
         [Event.payloadTooLarge
           (snapB { sC9.packet with
                      length2 := 0, length := sC9.packet.length1 + 0 * 256 })
           sC9.maxPacketPayloadLength], none) :=
  ⟨by decide, claimC9_construction.2.1 emptyLookup sC9 0 rfl rfl (by decide)⟩

/-- C9 counterexample: constructing with `maxPacketPayloadLength = -1`
succeeds (no construction-time rejection) and the violation surfaces during
decoding instead: a perfectly valid frame is rejected as `PayloadTooLarge`. -/
theorem claimC9_counterexample :
    constructB (some (-1))
      = { packet := packetTemplateB, payloadPosition := 0, packetStartFound := false,
          packetState := .PACKET_SYNC_1, streamIndex := 0, maxPacketPayloadLength := -1 } ∧
    (processB emptyLookup (constructB (some (-1))) [0xB5, 0x62, 3, 4, 1, 0, 7, 15, 41]).2
      = [Event.payloadTooLarge
          { cls := 3, id := 4, length := 1, payload := none, checksum := 0 } (-1)] := by
  decide

lemma map_nil_events (o : Option (ParserStateB × List Event)) :
    o.map (fun q => (q.1, ([] : List Event) ++ q.2)) = o := by
  cases o <;> simp

lemma runB_cons_none (lookup : Nat → Nat → Option Nat) (fuel : Nat) (s : ParserStateB)
    (b : Nat) (rest : List Nat) (s' : ParserStateB) (evts : List Event)
    (h : stepB lookup s b = (s', evts, none)) :
    runB lookup (fuel + 1) s (b :: rest)
      = (runB lookup fuel s' rest).map (fun q => (q.1, evts ++ q.2)) := by
  simp only [runB, h]

lemma runB_cons_some (lookup : Nat → Nat → Option Nat) (fuel : Nat) (s : ParserStateB)
    (b : Nat) (rest : List Nat) (s' : ParserStateB) (evts : List Event) (inj : List Nat)
    (h : stepB lookup s b = (s', evts, some inj)) :
    runB lookup (fuel + 1) s (b :: rest)
      = (runB lookup fuel s' (inj ++ rest)).map (fun q => (q.1, evts ++ q.2)) := by
  simp only [runB, h]

lemma set_append_length (a : List Nat) (l : List Nat) (x : Nat) :
    (a ++ l).set a.length x = a ++ l.set 0 x := by
  induction a with
  | nil => simp
  | cons y ys ih => simp [List.set, ih]

/-- While not inside a frame, a run of non-sync bytes is discarded one byte
per fuel unit, only advancing the stream position. -/
lemma runB_skip (lookup : Nat → Nat → Option Nat) :
    ∀ (xs : List Nat), (∀ x ∈ xs, x ≠ 0xB5) →
    ∀ (fuel : Nat) (s : ParserStateB) (ys : List Nat), s.packetStartFound = false →
      runB lookup (fuel + xs.length) s (xs ++ ys)
        = runB lookup fuel { s with streamIndex := s.streamIndex + xs.length } ys := by
  intro xs
  induction xs with
  | nil =>
    intro _ fuel s ys _
    simp
  | cons x xs ih =>
    intro hx fuel s ys hsf
    have hx1 : x ≠ 0xB5 := hx x (by simp)
    have hx2 : ∀ b ∈ xs, b ≠ 0xB5 := fun b hb => hx b (by simp [hb])
    have hstep : stepB lookup s x = ({ s with streamIndex := s.streamIndex + 1 }, [], none) := by
      simp [stepB, hsf, hx1]
    rw [show fuel + (x :: xs).length = (fuel + xs.length) + 1 from by simp; omega]
    rw [List.cons_append, runB_cons_none lookup _ s x (xs ++ ys) _ [] hstep, map_nil_events]
    rw [ih hx2 fuel _ ys (by simp [hsf])]
    have harith : s.streamIndex + 1 + (xs.length : Int)
        = s.streamIndex + ((x :: xs).length : Int) := by
      simp only [List.length_cons]
      push_cast
      ring
    simp only []
    rw [harith]

/-- Consuming the remaining declared payload bytes in `PACKET_LENGTH_2`
fills the allocated buffer in order and moves to `PACKET_PAYLOAD`. -/
lemma runB_payload (lookup : Nat → Nat → Option Nat) :
    ∀ (todo done : List Nat) (pk : PacketB) (six mx : Int) (fuel : Nat) (ys : List Nat),
      todo ≠ [] →
      pk.payload = some (done ++ List.replicate todo.length 0) →
      pk.length = done.length + todo.length →
      runB lookup (fuel + todo.length)
        { packet := pk, payloadPosition := done.length, packetStartFound := true,
          packetState := .PACKET_LENGTH_2, streamIndex := six, maxPacketPayloadLength := mx }
        (todo ++ ys)
        = runB lookup fuel
            { packet := { pk with payload := some (done ++ todo) },
              payloadPosition := pk.length, packetStartFound := true,
              packetState := .PACKET_PAYLOAD, streamIndex := six + todo.length,
              maxPacketPayloadLength := mx } ys := by
  intro todo
  induction todo with
  | nil => intro done pk six mx fuel ys h; exact absurd rfl h
  | cons t ts ih =>
    intro done pk six mx fuel ys _ hpl hlen
    have hset : (done ++ List.replicate (t :: ts).length 0).set done.length t
        = (done ++ [t]) ++ List.replicate ts.length 0 := by
      rw [List.length_cons, List.replicate_succ, set_append_length]
      simp
    cases ts with
    | nil =>
      have hstep : stepB lookup
          { packet := pk, payloadPosition := done.length, packetStartFound := true,
            packetState := .PACKET_LENGTH_2, streamIndex := six, maxPacketPayloadLength := mx } t
          = ({ packet := { pk with payload := some (done ++ [t]) },
               payloadPosition := pk.length, packetStartFound := true,
               packetState := .PACKET_PAYLOAD, streamIndex := six + 1,
               maxPacketPayloadLength := mx }, [], none) := by
        simp only [stepB, hpl, hset, hlen]
        simp
      rw [show fuel + ([t] : List Nat).length = fuel + 1 from by simp]
      rw [List.cons_append, List.nil_append,
        runB_cons_none lookup _ _ t ys _ [] hstep, map_nil_events]
      simp
    | cons t2 ts2 =>
      have hne : ¬(done.length + 1 ≥ pk.length) := by
        simp only [List.length_cons] at hlen
        omega
      have hstep : stepB lookup
          { packet := pk, payloadPosition := done.length, packetStartFound := true,
            packetState := .PACKET_LENGTH_2, streamIndex := six, maxPacketPayloadLength := mx } t
          = ({ packet := { pk with
                 payload := some ((done ++ [t]) ++ List.replicate (t2 :: ts2).length 0) },
               payloadPosition := done.length + 1, packetStartFound := true,
               packetState := .PACKET_LENGTH_2, streamIndex := six + 1,
               maxPacketPayloadLength := mx }, [], none) := by
        simp only [stepB, hpl, hset, if_neg hne]
        simp
      rw [show fuel + (t :: t2 :: ts2).length = (fuel + (t2 :: ts2).length) + 1 from by
        simp; omega]
      rw [List.cons_append, runB_cons_none lookup _ _ t _ _ [] hstep, map_nil_events]
      have hih := ih (done ++ [t])
        { pk with payload := some ((done ++ [t]) ++ List.replicate (t2 :: ts2).length 0) }
        (six + 1) mx fuel ys (by simp) (by simp)
        (by simp only [List.length_append, List.length_cons] at hlen ⊢; simp; omega)
      rw [show (done ++ [t]).length = done.length + 1 from by simp] at hih
      rw [hih]
      have harith : six + 1 + ((t2 :: ts2).length : Int)
          = six + ((t :: t2 :: ts2).length : Int) := by
        simp only [List.length_cons]
        push_cast
        ring
      simp only [harith]
      congr 1
      simp

/-- Consuming sync, header and payload of a frame whose length passes
validation: from a clean scanning state to the payload-complete state. -/
lemma runB_toPayload (lookup : Nat → Nat → Option Nat)
    (c i lo hi : Nat) (p : List Nat) (M ix : Int) (fuel : Nat) (rest : List Nat)
    (hp : p.length = lo + hi * 256)
    (hpne : p ≠ [])
    (hmax : ¬(M ≠ 0 ∧ ((lo + hi * 256 : Nat) : Int) > M))
    (hlk : lookup c i = none ∨ lookup c i = some (lo + hi * 256)) :
    runB lookup (fuel + (6 + p.length)) (scanState M ix)
        ((0xB5 :: 0x62 :: c :: i :: lo :: hi :: p) ++ rest)
      = runB lookup fuel
          { packet := { cls := c, id := i, length := lo + hi * 256, length1 := lo,
                        length2 := hi, checksum1 := 0, checksum2 := 0, checksum := 0,
                        payload := some p },
            payloadPosition := lo + hi * 256, packetStartFound := true,
            packetState := .PACKET_PAYLOAD, streamIndex := ix + 6 + (p.length : Int),
            maxPacketPayloadLength := M } rest := by
  have hmax' : ¬(M ≠ 0 ∧ M < (lo : Int) + (hi : Int) * 256) := by
    push_cast at hmax
    tauto
  have hL0 : ¬(lo = 0 ∧ hi = 0) := by
    have := List.length_pos.mpr hpne
    omega
  have h1 : stepB lookup (scanState M ix) 0xB5
      = ({ packet := packetTemplateB, payloadPosition := 0, packetStartFound := true,
           packetState := .PACKET_SYNC_1, streamIndex := ix + 1,
           maxPacketPayloadLength := M }, [], none) := by
    simp [stepB, scanState]
  have h2 : stepB lookup
      { packet := packetTemplateB, payloadPosition := 0, packetStartFound := true,
        packetState := .PACKET_SYNC_1, streamIndex := ix + 1, maxPacketPayloadLength := M } 0x62
      = ({ packet := packetTemplateB, payloadPosition := 0, packetStartFound := true,
           packetState := .PACKET_SYNC_2, streamIndex := ix + 2,
           maxPacketPayloadLength := M }, [], none) := by
    simp [stepB]
    ring
  have h3 : stepB lookup
      { packet := packetTemplateB, payloadPosition := 0, packetStartFound := true,
        packetState := .PACKET_SYNC_2, streamIndex := ix + 2, maxPacketPayloadLength := M } c
      = ({ packet := { packetTemplateB with cls := c }, payloadPosition := 0,
           packetStartFound := true, packetState := .PACKET_CLASS, streamIndex := ix + 3,
           maxPacketPayloadLength := M }, [], none) := by
    simp [stepB]
    ring
  have h4 : stepB lookup
      { packet := { packetTemplateB with cls := c }, payloadPosition := 0,
        packetStartFound := true, packetState := .PACKET_CLASS, streamIndex := ix + 3,
        maxPacketPayloadLength := M } i
      = ({ packet := { packetTemplateB with cls := c, id := i }, payloadPosition := 0,
           packetStartFound := true, packetState := .PACKET_ID, streamIndex := ix + 4,
           maxPacketPayloadLength := M }, [], none) := by
    simp [stepB]
    ring
  have h5 : stepB lookup
      { packet := { packetTemplateB with cls := c, id := i }, payloadPosition := 0,
        packetStartFound := true, packetState := .PACKET_ID, streamIndex := ix + 4,
        maxPacketPayloadLength := M } lo
      = ({ packet := { packetTemplateB with cls := c, id := i, length1 := lo },
           payloadPosition := 0, packetStartFound := true, packetState := .PACKET_LENGTH,
           streamIndex := ix + 5, maxPacketPayloadLength := M }, [], none) := by
    simp [stepB]
    ring
  have h6 : stepB lookup
      { packet := { packetTemplateB with cls := c, id := i, length1 := lo },
        payloadPosition := 0, packetStartFound := true, packetState := .PACKET_LENGTH,
        streamIndex := ix + 5, maxPacketPayloadLength := M } hi
      = ({ packet := { cls := c, id := i, length := lo + hi * 256, length1 := lo,
                       length2 := hi, checksum1 := 0, checksum2 := 0, checksum := 0,
                       payload := none },
           payloadPosition := 0, packetStartFound := true, packetState := .PACKET_LENGTH_2,
           streamIndex := ix + 6, maxPacketPayloadLength := M }, [], none) := by
    rcases hlk with hlk | hlk
    · simp [stepB, hmax', hL0, hlk, packetTemplateB]
      ring
    · simp [stepB, hmax', hL0, hlk, packetTemplateB]
      ring
  rw [show fuel + (6 + p.length) = (((((((fuel + p.length)) + 1) + 1) + 1) + 1) + 1) + 1
    from by omega]
  simp only [List.cons_append, List.nil_append, List.append_assoc]
  rw [runB_cons_none lookup _ _ _ _ _ [] h1, map_nil_events,
    runB_cons_none lookup _ _ _ _ _ [] h2, map_nil_events,
    runB_cons_none lookup _ _ _ _ _ [] h3, map_nil_events,
    runB_cons_none lookup _ _ _ _ _ [] h4, map_nil_events,
    runB_cons_none lookup _ _ _ _ _ [] h5, map_nil_events,
    runB_cons_none lookup _ _ _ _ _ [] h6, map_nil_events]
  cases p with
  | nil => exact absurd rfl hpne
  | cons p0 p' =>
    have hLp : lo + hi * 256 = p'.length + 1 := by
      simp only [List.length_cons] at hp
      omega
    have hset0 : (List.replicate (lo + hi * 256) 0).set 0 p0
        = [p0] ++ List.replicate p'.length 0 := by
      rw [hLp, List.replicate_succ]
      simp
    cases p' with
    | nil =>
      have h7 : stepB lookup
          { packet := { cls := c, id := i, length := lo + hi * 256, length1 := lo,
                        length2 := hi, checksum1 := 0, checksum2 := 0, checksum := 0,
                        payload := none },
            payloadPosition := 0, packetStartFound := true,
            packetState := .PACKET_LENGTH_2, streamIndex := ix + 6,
            maxPacketPayloadLength := M } p0
          = ({ packet := { cls := c, id := i, length := lo + hi * 256, length1 := lo,
                           length2 := hi, checksum1 := 0, checksum2 := 0, checksum := 0,
                           payload := some [p0] },
               payloadPosition := lo + hi * 256, packetStartFound := true,
               packetState := .PACKET_PAYLOAD, streamIndex := ix + 7,
               maxPacketPayloadLength := M }, [], none) := by
        simp only [List.length_nil] at hLp
        simp [stepB, hset0, hLp]
        ring
      rw [show fuel + ([p0] : List Nat).length = fuel + 1 from by simp]
      simp only [List.cons_append, List.nil_append]
      rw [runB_cons_none lookup _ _ p0 _ _ [] h7, map_nil_events]
      have : ix + 7 = ix + 6 + ((([p0] : List Nat)).length : Int) := by
        simp
        ring
      rw [this]
    | cons p1 p'' =>
      have hlt : ¬(0 + 1 ≥ lo + hi * 256) := by
        simp only [List.length_cons] at hLp
        omega
      have h7 : stepB lookup
          { packet := { cls := c, id := i, length := lo + hi * 256, length1 := lo,
                        length2 := hi, checksum1 := 0, checksum2 := 0, checksum := 0,
                        payload := none },
            payloadPosition := 0, packetStartFound := true,
            packetState := .PACKET_LENGTH_2, streamIndex := ix + 6,
            maxPacketPayloadLength := M } p0
          = ({ packet := { cls := c, id := i, length := lo + hi * 256, length1 := lo,
                           length2 := hi, checksum1 := 0, checksum2 := 0, checksum := 0,
                           payload := some ([p0] ++ List.replicate (p1 :: p'').length 0) },
               payloadPosition := 1, packetStartFound := true,
               packetState := .PACKET_LENGTH_2, streamIndex := ix + 7,
               maxPacketPayloadLength := M }, [], none) := by
        simp only [stepB, if_neg hlt]
        simp [hset0]
        ring
      rw [show fuel + (p0 :: p1 :: p'').length = ((fuel + (p1 :: p'').length)) + 1
        from by simp; omega]
      simp only [List.cons_append]
      rw [runB_cons_none lookup _ _ p0 _ _ [] h7, map_nil_events]
      have hpay := runB_payload lookup (p1 :: p'') [p0]
        { cls := c, id := i, length := lo + hi * 256, length1 := lo, length2 := hi,
          checksum1 := 0, checksum2 := 0, checksum := 0,
          payload := some ([p0] ++ List.replicate (p1 :: p'').length 0) }
        (ix + 7) M fuel rest (by simp) rfl
        (by simp only [List.length_cons, List.length_singleton] at hLp ⊢; simp; omega)
      rw [show (([p0] : List Nat)).length = 1 from rfl] at hpay
      simp only [List.cons_append, List.nil_append, List.append_assoc] at hpay ⊢
      rw [hpay]
      have : ix + 7 + (((p1 :: p'') : List Nat).length : Int)
          = ix + 6 + (((p0 :: p1 :: p'') : List Nat).length : Int) := by
        simp only [List.length_cons]
        push_cast
        ring
      rw [this]

/-- Decoding one complete well-formed frame from a clean scanning state:
it consumes its `8 + length` bytes, pushes exactly one packet, and returns
to a clean scanning state. -/
lemma runB_frame (lookup : Nat → Nat → Option Nat)
    (c i lo hi : Nat) (p : List Nat) (k1 k2 : Nat) (M ix : Int) (fuel : Nat) (ys : List Nat)
    (hp : p.length = lo + hi * 256)
    (hpne : p ≠ [])
    (hmax : ¬(M ≠ 0 ∧ ((lo + hi * 256 : Nat) : Int) > M))
    (hlk : lookup c i = none ∨ lookup c i = some (lo + hi * 256))
    (hck : calcCheckSum c i (lo + hi * 256) p = k1 + k2 * 256) :
    runB lookup (fuel + (8 + p.length)) (scanState M ix)
        (([0xB5, 0x62, c, i, lo, hi] ++ p ++ [k1, k2]) ++ ys)
      = (runB lookup fuel (scanState M (ix + 8 + (p.length : Int))) ys).map
          (fun q => (q.1, Event.packet c i p :: q.2)) := by
  have hmain := runB_toPayload lookup c i lo hi p M ix (fuel + 2) ([k1, k2] ++ ys)
    hp hpne hmax hlk
  rw [show fuel + (8 + p.length) = (fuel + 2) + (6 + p.length) from by omega]
  rw [show (([0xB5, 0x62, c, i, lo, hi] ++ p ++ [k1, k2]) ++ ys : List Nat)
      = (0xB5 :: 0x62 :: c :: i :: lo :: hi :: p) ++ ([k1, k2] ++ ys) from by simp]
  rw [hmain]
  have h8 : stepB lookup
      { packet := { cls := c, id := i, length := lo + hi * 256, length1 := lo, length2 := hi,
                    checksum1 := 0, checksum2 := 0, checksum := 0, payload := some p },
        payloadPosition := lo + hi * 256, packetStartFound := true,
        packetState := .PACKET_PAYLOAD, streamIndex := ix + 6 + (p.length : Int),
        maxPacketPayloadLength := M } k1
      = ({ packet := { cls := c, id := i, length := lo + hi * 256, length1 := lo,
                       length2 := hi, checksum1 := k1, checksum2 := 0, checksum := 0,
                       payload := some p },
           payloadPosition := lo + hi * 256, packetStartFound := true,
           packetState := .PACKET_CHECKSUM, streamIndex := ix + 6 + (p.length : Int) + 1,
           maxPacketPayloadLength := M }, [], none) := by
    simp [stepB]
  have h9 : stepB lookup
      { packet := { cls := c, id := i, length := lo + hi * 256, length1 := lo, length2 := hi,
                    checksum1 := k1, checksum2 := 0, checksum := 0, payload := some p },
        payloadPosition := lo + hi * 256, packetStartFound := true,
        packetState := .PACKET_CHECKSUM, streamIndex := ix + 6 + (p.length : Int) + 1,
        maxPacketPayloadLength := M } k2
      = (scanState M (ix + 8 + (p.length : Int)), [Event.packet c i p], none) := by
    have hgt : 0 < lo + hi * 256 := by
      have := List.length_pos.mpr hpne
      omega
    simp [stepB, hck, hgt, scanState, resetStateB, packetTemplateB]
    ring
  rw [show fuel + 2 = (fuel + 1) + 1 from by omega]
  rw [List.cons_append, runB_cons_none lookup _ _ k1 _ _ [] h8, map_nil_events,
    List.cons_append, List.nil_append, runB_cons_none lookup _ _ k2 _ _ _ h9]
  simp

/-- A frame whose length passes validation but whose checksum mismatches:
the decoder emits `FailedChecksum` with the computed checksum, re-injects
exactly `[class, id, lengthLow, lengthHigh, payload..., checksumLow,
checksumHigh]` in front of the unread input, and rescans from a clean
scanning state positioned one byte past the original sync trailer. -/
lemma runB_corrupt (lookup : Nat → Nat → Option Nat)
    (c i lo hi : Nat) (p : List Nat) (k1 k2 : Nat) (M ix : Int) (fuel : Nat) (ys : List Nat)
    (hp : p.length = lo + hi * 256)
    (hpne : p ≠ [])
    (hlo : lo < 256) (hhi : hi < 256)
    (hmax : ¬(M ≠ 0 ∧ ((lo + hi * 256 : Nat) : Int) > M))
    (hlk : lookup c i = none ∨ lookup c i = some (lo + hi * 256))
    (hck : calcCheckSum c i (lo + hi * 256) p ≠ k1 + k2 * 256) :
    runB lookup (fuel + (8 + p.length)) (scanState M ix)
        (([0xB5, 0x62, c, i, lo, hi] ++ p ++ [k1, k2]) ++ ys)
      = (runB lookup fuel (scanState M (ix + 2))
            ((c :: i :: lo :: hi :: (p ++ [k1, k2])) ++ ys)).map
          (fun q => (q.1,
            Event.failedChecksum
              { cls := c, id := i, length := lo + hi * 256, payload := some p,
                checksum := k1 + k2 * 256 }
              (calcCheckSum c i (lo + hi * 256) p) :: q.2)) := by
  have hmain := runB_toPayload lookup c i lo hi p M ix (fuel + 2) ([k1, k2] ++ ys)
    hp hpne hmax hlk
  rw [show fuel + (8 + p.length) = (fuel + 2) + (6 + p.length) from by omega]
  rw [show (([0xB5, 0x62, c, i, lo, hi] ++ p ++ [k1, k2]) ++ ys : List Nat)
      = (0xB5 :: 0x62 :: c :: i :: lo :: hi :: p) ++ ([k1, k2] ++ ys) from by simp]
  rw [hmain]
  have h8 : stepB lookup
      { packet := { cls := c, id := i, length := lo + hi * 256, length1 := lo, length2 := hi,
                    checksum1 := 0, checksum2 := 0, checksum := 0, payload := some p },
        payloadPosition := lo + hi * 256, packetStartFound := true,
        packetState := .PACKET_PAYLOAD, streamIndex := ix + 6 + (p.length : Int),
        maxPacketPayloadLength := M } k1
      = ({ packet := { cls := c, id := i, length := lo + hi * 256, length1 := lo,
                       length2 := hi, checksum1 := k1, checksum2 := 0, checksum := 0,
                       payload := some p },
           payloadPosition := lo + hi * 256, packetStartFound := true,
           packetState := .PACKET_CHECKSUM, streamIndex := ix + 6 + (p.length : Int) + 1,
           maxPacketPayloadLength := M }, [], none) := by
    simp [stepB]
  have hmod1 : (lo + hi * 256) % 256 = lo := by omega
  have hmod2 : (lo + hi * 256) / 256 % 256 = hi := by omega
  have h9 : stepB lookup
      { packet := { cls := c, id := i, length := lo + hi * 256, length1 := lo, length2 := hi,
                    checksum1 := k1, checksum2 := 0, checksum := 0, payload := some p },
        payloadPosition := lo + hi * 256, packetStartFound := true,
        packetState := .PACKET_CHECKSUM, streamIndex := ix + 6 + (p.length : Int) + 1,
        maxPacketPayloadLength := M } k2
      = (scanState M (ix + 2),
         [Event.failedChecksum
           { cls := c, id := i, length := lo + hi * 256, payload := some p,
             checksum := k1 + k2 * 256 }
           (calcCheckSum c i (lo + hi * 256) p)],
         some (c :: i :: lo :: hi :: (p ++ [k1, k2]))) := by
    simp [stepB, hck, scanState, resetStateB, packetTemplateB, reinjectBytes, snapB,
      hmod1, hmod2]
    refine ⟨by ring, by rw [hp]; exact hmod1, by rw [hp]; exact hmod2⟩
  rw [show fuel + 2 = (fuel + 1) + 1 from by omega]
  rw [List.cons_append, runB_cons_none lookup _ _ k1 _ _ [] h8, map_nil_events,
    List.cons_append, List.nil_append, runB_cons_some lookup _ _ k2 _ _ _ _ h9]
  simp

/-- C1 (amended): on a checksum mismatch of a frame whose length passed
validation, the decoder emits `FailedChecksum{frame, computedChecksum}`,
re-injects exactly `[class, id, lengthLow, lengthHigh, payload...,
checksumLow, checksumHigh]` in front of the unconsumed input, and resumes in
`ScanningForSync` with the stream position rewound to one byte past the
original sync trailer.  Consequently an embedded `0xB5 0x62` followed by a
fully valid frame inside the corrupt body is still decoded and emitted as a
`Packet` — provided no byte of the re-scanned prefix before the embedded
frame equals `0xB5`; an adversarial body can still lose the embedded frame
(see the counterexample). -/
theorem claimC1_backtracking :
    (∀ (lookup : Nat → Nat → Option Nat) (fuel : Nat) (s : ParserStateB) (b : Nat)
       (rest : List Nat) (l : List Nat),
      s.packetStartFound = true → s.packetState = .PACKET_CHECKSUM →
      s.packet.payload = some l →
      calcCheckSum s.packet.cls s.packet.id s.packet.length l ≠ s.packet.checksum1 + b * 256 →
      runB lookup (fuel + 1) s (b :: rest)
        = (runB lookup fuel
            { packet := packetTemplateB, payloadPosition := 0, packetStartFound := false,
              packetState := .PACKET_SYNC_1,
              streamIndex := s.streamIndex - (4 + (l.length : Int) + 2) + 1,
              maxPacketPayloadLength := s.maxPacketPayloadLength }
            ((s.packet.cls :: s.packet.id :: l.length % 256 :: l.length / 256 % 256 ::
              (l ++ [s.packet.checksum1, b])) ++ rest)).map
          (fun q => (q.1, Event.failedChecksum
            { cls := s.packet.cls, id := s.packet.id, length := s.packet.length,
              payload := some l, checksum := s.packet.checksum1 + b * 256 }
            (calcCheckSum s.packet.cls s.packet.id s.packet.length l) :: q.2))) ∧
    (∀ (lookup : Nat → Nat → Option Nat) (M ix : Int) (C I lo hi : Nat) (pre : List Nat)
       (ic ii ilo ihi : Nat) (ip : List Nat) (ik1 ik2 w1 w2 : Nat),
      (pre ++ ([0xB5, 0x62, ic, ii, ilo, ihi] ++ ip ++ [ik1, ik2])).length = lo + hi * 256 →
      lo < 256 → hi < 256 →
      ¬(M ≠ 0 ∧ ((lo + hi * 256 : Nat) : Int) > M) →
      (lookup C I = none ∨ lookup C I = some (lo + hi * 256)) →
      calcCheckSum C I (lo + hi * 256)
          (pre ++ ([0xB5, 0x62, ic, ii, ilo, ihi] ++ ip ++ [ik1, ik2])) ≠ w1 + w2 * 256 →
      C ≠ 0xB5 → I ≠ 0xB5 → lo ≠ 0xB5 → hi ≠ 0xB5 → (∀ x ∈ pre, x ≠ 0xB5) →
      w1 ≠ 0xB5 → w2 ≠ 0xB5 →
      ip.length = ilo + ihi * 256 → ip ≠ [] →
      ¬(M ≠ 0 ∧ ((ilo + ihi * 256 : Nat) : Int) > M) →
      (lookup ic ii = none ∨ lookup ic ii = some (ilo + ihi * 256)) →
      calcCheckSum ic ii (ilo + ihi * 256) ip = ik1 + ik2 * 256 →
      (processB lookup (scanState M ix)
          ([0xB5, 0x62, C, I, lo, hi]
            ++ (pre ++ ([0xB5, 0x62, ic, ii, ilo, ihi] ++ ip ++ [ik1, ik2]))
            ++ [w1, w2])).2
        = [Event.failedChecksum
             { cls := C, id := I, length := lo + hi * 256,
               payload := some (pre ++ ([0xB5, 0x62, ic, ii, ilo, ihi] ++ ip ++ [ik1, ik2])),
               checksum := w1 + w2 * 256 }
             (calcCheckSum C I (lo + hi * 256)
               (pre ++ ([0xB5, 0x62, ic, ii, ilo, ihi] ++ ip ++ [ik1, ik2]))),
           Event.packet ic ii ip]) := by
  constructor
  · intro lookup fuel s b rest l hsf hst hpl hck
    obtain ⟨⟨c, i, L, l1, l2, k1, k2, k, pl⟩, pos, sf, st, six, mx⟩ := s
    simp only at hsf hst hpl hck ⊢
    subst hsf hst hpl
    have hstep : stepB lookup
        { packet := { cls := c, id := i, length := L, length1 := l1, length2 := l2,
                      checksum1 := k1, checksum2 := k2, checksum := k, payload := some l },
          payloadPosition := pos, packetStartFound := true,
          packetState := .PACKET_CHECKSUM, streamIndex := six,
          maxPacketPayloadLength := mx } b
        = ({ packet := packetTemplateB, payloadPosition := 0, packetStartFound := false,
             packetState := .PACKET_SYNC_1,
             streamIndex := six - (4 + (l.length : Int) + 2) + 1,
             maxPacketPayloadLength := mx },
           [Event.failedChecksum
             { cls := c, id := i, length := L, payload := some l, checksum := k1 + b * 256 }
             (calcCheckSum c i L l)],
           some (c :: i :: l.length % 256 :: l.length / 256 % 256 ::
             (l ++ [k1, b]))) := by
      simp [stepB, hck, resetStateB, packetTemplateB, reinjectBytes, snapB]
    exact runB_cons_some lookup fuel _ b rest _ _ _ hstep
  · intro lookup M ix C I lo hi pre ic ii ilo ihi ip ik1 ik2 w1 w2
      hlen hlo hhi hmax hlkO hckO hC hI hlo5 hhi5 hpre hw1 hw2 hiplen hipne hmaxI hlkI hckI
    have hbody_ne : (pre ++ ([0xB5, 0x62, ic, ii, ilo, ihi] ++ ip ++ [ik1, ik2])) ≠ [] := by
      simp
    -- final two bytes are skipped in scanning mode
    have hskip2 : ∀ J : Int, runB lookup 3 (scanState M J) [w1, w2]
        = some (scanState M (J + 2), []) := by
      intro J
      have h := runB_skip lookup [w1, w2]
        (by intro x hx; simp at hx; rcases hx with rfl | rfl <;> assumption)
        1 (scanState M J) [] rfl
      simp only [List.append_nil] at h
      rw [show (1 : Nat) + ([w1, w2] : List Nat).length = 3 from rfl] at h
      rw [h]
      rfl
    -- the embedded valid frame is decoded
    have hpacket : ∀ J : Int,
        runB lookup ((3 + (8 + ip.length)))
          (scanState M J) (([0xB5, 0x62, ic, ii, ilo, ihi] ++ ip ++ [ik1, ik2]) ++ [w1, w2])
        = some (scanState M (J + 8 + (ip.length : Int) + 2), [Event.packet ic ii ip]) := by
      intro J
      have h := runB_frame lookup ic ii ilo ihi ip ik1 ik2 M J 3 [w1, w2]
        hiplen hipne hmaxI hlkI hckI
      rw [h, hskip2 (J + 8 + (ip.length : Int))]
      rfl
    -- the re-scanned bytes before the embedded frame are skipped
    have hskip1 : ∀ J : Int,
        runB lookup ((3 + (8 + ip.length)) + (4 + pre.length))
          (scanState M J)
          ((([C, I, lo, hi] ++ pre)
            ++ (([0xB5, 0x62, ic, ii, ilo, ihi] ++ ip ++ [ik1, ik2]) ++ [w1, w2])))
        = some (scanState M (J + (4 + pre.length) + 8 + (ip.length : Int) + 2),
                [Event.packet ic ii ip]) := by
      intro J
      have hall : ∀ x ∈ ([C, I, lo, hi] ++ pre : List Nat), x ≠ 0xB5 := by
        intro x hx
        simp at hx
        rcases hx with rfl | rfl | rfl | rfl | hx
        · exact hC
        · exact hI
        · exact hlo5
        · exact hhi5
        · exact hpre x hx
      have h := runB_skip lookup ([C, I, lo, hi] ++ pre) hall (3 + (8 + ip.length))
        (scanState M J)
        ((([0xB5, 0x62, ic, ii, ilo, ihi] ++ ip ++ [ik1, ik2]) ++ [w1, w2])) rfl
      rw [show (([C, I, lo, hi] ++ pre : List Nat)).length = 4 + pre.length from by
        simp; omega] at h
      rw [h]
      rw [show ({ scanState M J with
            streamIndex := (scanState M J).streamIndex + ((4 + pre.length : Nat) : Int) }
          : ParserStateB)
          = scanState M (J + ((4 + pre.length : Nat) : Int)) from rfl]
      rw [hpacket (J + ((4 + pre.length : Nat) : Int))]
      rw [show J + ((4 + pre.length : Nat) : Int) + 8 + (ip.length : Int) + 2
          = J + (4 + pre.length) + 8 + (ip.length : Int) + 2 from by push_cast; ring]
    -- the corrupt outer frame: mismatch, re-injection, then the above
    have hcorrupt := runB_corrupt lookup C I lo hi
      (pre ++ ([0xB5, 0x62, ic, ii, ilo, ihi] ++ ip ++ [ik1, ik2])) w1 w2 M ix
      ((3 + (8 + ip.length)) + (4 + pre.length)) [] hlen hbody_ne hlo hhi hmax hlkO hckO
    rw [List.append_nil] at hcorrupt
    have hlist :
        (C :: I :: lo :: hi ::
          ((pre ++ ([0xB5, 0x62, ic, ii, ilo, ihi] ++ ip ++ [ik1, ik2])) ++ [w1, w2])) ++ []
        = (([C, I, lo, hi] ++ pre)
            ++ (([0xB5, 0x62, ic, ii, ilo, ihi] ++ ip ++ [ik1, ik2]) ++ [w1, w2])) := by
      simp
    rw [hlist, hskip1 (ix + 2)] at hcorrupt
    have hproc := processB_eq lookup (scanState M ix)
      (([0xB5, 0x62, C, I, lo, hi]
         ++ (pre ++ ([0xB5, 0x62, ic, ii, ilo, ihi] ++ ip ++ [ik1, ik2]))
         ++ [w1, w2]))
      (scanState M (ix + 2 + (4 + pre.length) + 8 + (ip.length : Int) + 2),
       [Event.failedChecksum
          { cls := C, id := I, length := lo + hi * 256,
            payload := some (pre ++ ([0xB5, 0x62, ic, ii, ilo, ihi] ++ ip ++ [ik1, ik2])),
            checksum := w1 + w2 * 256 }
          (calcCheckSum C I (lo + hi * 256)
            (pre ++ ([0xB5, 0x62, ic, ii, ilo, ihi] ++ ip ++ [ik1, ik2]))),
        Event.packet ic ii ip])
      (InvB_scan M ix) _ (by rw [hcorrupt]; rfl)
    rw [hproc]

theorem claimC1_backtracking_witness :
    (processB emptyLookup (scanState 300 0)
        ([0xB5, 0x62, 1, 1, 9, 0]
          ++ ([] ++ ([0xB5, 0x62, 3, 4, 1, 0] ++ [7] ++ [15, 41]))
          ++ [1, 1])).2
      = [Event.failedChecksum
           { cls := 1, id := 1, length := 9,
             payload := some ([] ++ ([0xB5, 0x62, 3, 4, 1, 0] ++ [7] ++ [15, 41])),
             checksum := 257 }
           30569,
         Event.packet 3 4 [7]] := by
  have h := claimC1_backtracking.2 emptyLookup 300 0 1 1 9 0 [] 3 4 1 0 [7] 15 41 1 1
    (by decide) (by decide) (by decide) (by decide) (Or.inl rfl) (by decide)
    (by decide) (by decide) (by decide) (by decide) (by intro x hx; simp at hx)
    (by decide) (by decide) (by decide) (by decide) (by decide) (Or.inl rfl) (by decide)
  exact h

/-- C1 counterexample: a corrupt outer frame whose body begins with a doubled
sync pair `0xB5 0x62` followed by a fully valid frame.  The re-scan latches on
the first embedded sync pair, reads class `0xB5`, id `0x62` and a length of
512 which exceeds the 300-byte default cap, aborts with `PayloadTooLarge`
without backtracking, and the valid embedded frame is never decoded: no
`Packet` event is emitted, refuting the universal recovery clause. -/
theorem claimC1_counterexample :
    (processB emptyLookup (constructB none)
        ([0xB5, 0x62, 1, 1, 11, 0]
          ++ ([0xB5, 0x62] ++ ([0xB5, 0x62, 0, 2, 1, 0] ++ [7] ++ [10, 18]))
          ++ [0, 0])).2
      = [Event.failedChecksum
           { cls := 1, id := 1, length := 11,
             payload := some ([0xB5, 0x62] ++ ([0xB5, 0x62, 0, 2, 1, 0] ++ [7] ++ [10, 18])),
             checksum := 0 } 97,
         Event.payloadTooLarge
           { cls := 0xB5, id := 0x62, length := 512, payload := none, checksum := 0 } 300]
    ∧ calcCheckSum 0 2 1 [7] = 10 + 18 * 256
    ∧ ([0xB5, 0x62] ++ ([0xB5, 0x62, 0, 2, 1, 0] ++ [7] ++ [10, 18]) : List Nat).length = 11 := by
  decide

lemma stepB_some_failed (lookup : Nat → Nat → Option Nat) (s : ParserStateB) (v : Nat)
    (inj : List Nat) (h : (stepB lookup s v).2.2 = some inj) :
    ∃ snap c, (stepB lookup s v).2.1 = [Event.failedChecksum snap c] := by
  obtain ⟨⟨c, i, L, l1, l2, k1, k2, k, pl⟩, pos, sf, st, six, mx⟩ := s
  cases sf <;> cases st <;> simp only [stepB] at h ⊢ <;>
    rcases hlk : lookup c i with _ | e <;>
    (try simp only [hlk] at h ⊢) <;>
    (try split_ifs at h ⊢) <;>
    exact ⟨_, _, rfl⟩

lemma RelNB_construct (options : Option Int) :
    RelNB (constructNB options) (constructB options) := by
  simp [RelNB, constructNB, constructB, packetTemplateNB, packetTemplateB]

lemma stepAgreeNB (lookup : Nat → Nat → Option Nat) (n : ParserStateNB) (b : ParserStateB)
    (v : Nat) (hR : RelNB n b) :
    (stepNB lookup n v).2 = (stepB lookup b v).2.1 ∧
    ((stepB lookup b v).2.2 = none → RelNB (stepNB lookup n v).1 (stepB lookup b v).1) := by
  obtain ⟨⟨nc, ni, nL, npl, nk⟩, npos, nsf, nst, nix, nmx⟩ := n
  obtain ⟨⟨bc, bi, bL, bl1, bl2, bk1, bk2, bk, bpl⟩, bpos, bsf, bst, bix, bmx⟩ := b
  obtain ⟨h1, h2, h3, h4, h5, h6, h7, h8, h9, h10⟩ := hR
  simp only at h1 h2 h3 h4 h5 h6 h7 h8 h9 h10
  subst h1 h2 h3 h4 h5 h6 h7 h8
  cases nsf <;> cases nst <;> simp at h9 h10 <;> subst h9 <;> subst h10 <;>
  · refine ⟨?_, ?_⟩ <;>
      simp only [stepNB, stepB, snapNB, snapB, resetStateNB, resetStateB,
        packetTemplateNB, packetTemplateB] <;>
      (try rcases lookup nc ni with _ | e) <;>
      (try dsimp only) <;>
      split_ifs <;>
      simp_all [RelNB, packetTemplateNB, packetTemplateB]

lemma runAgreeNB (lookup : Nat → Nat → Option Nat) :
    ∀ (fuel : Nat) (n : ParserStateNB) (b : ParserStateB) (d : List Nat)
      (b' : ParserStateB) (evs : List Event), RelNB n b →
      runB lookup fuel b d = some (b', evs) →
      (∀ e ∈ evs, isFailedChecksumEvent e = false) →
      (runNB lookup n d).2 = evs ∧ RelNB (runNB lookup n d).1 b' := by
  intro fuel
  induction fuel with
  | zero =>
      intro n b d b' evs _ hrun _
      simp [runB] at hrun
  | succ fuel ih =>
      intro n b d b' evs hR hrun hno
      cases d with
      | nil =>
          simp [runB] at hrun
          obtain ⟨rfl, rfl⟩ := hrun
          simp only [runNB]
          exact ⟨trivial, hR⟩
      | cons x rest =>
          have hstep := stepAgreeNB lookup n b x hR
          cases hinj : (stepB lookup b x).2.2 with
          | none =>
              have htriple : stepB lookup b x
                  = ((stepB lookup b x).1, (stepB lookup b x).2.1, none) := by
                rw [← hinj]
              rw [runB_cons_none lookup fuel b x rest _ _ htriple] at hrun
              obtain ⟨⟨b2, evs2⟩, hq, heq⟩ := Option.map_eq_some'.mp hrun
              rw [Prod.ext_iff] at heq
              obtain ⟨hb, he⟩ := heq
              simp only at hb he
              subst hb
              subst he
              have hih := ih (stepNB lookup n x).1 (stepB lookup b x).1 rest b2 evs2
                (hstep.2 hinj) hq
                (fun e he => hno e (List.mem_append.mpr (Or.inr he)))
              simp only [runNB]
              refine ⟨?_, hih.2⟩
              rw [hstep.1, hih.1]
          | some inj =>
              obtain ⟨snap, cc, hev⟩ := stepB_some_failed lookup b x inj hinj
              have htriple : stepB lookup b x
                  = ((stepB lookup b x).1, [Event.failedChecksum snap cc], some inj) := by
                rw [← hev, ← hinj]
              rw [runB_cons_some lookup fuel b x rest _ _ _ htriple] at hrun
              obtain ⟨⟨b2, evs2⟩, hq, heq⟩ := Option.map_eq_some'.mp hrun
              rw [Prod.ext_iff] at heq
              obtain ⟨hb, he⟩ := heq
              simp only at hb he
              subst hb
              subst he
              have := hno (Event.failedChecksum snap cc)
                (List.mem_append.mpr (Or.inl (List.mem_singleton.mpr rfl)))
              simp [isFailedChecksumEvent] at this

/-- C10: as long as no frame reaches the checksum comparison with a mismatch
(no `FailedChecksum` diagnostic is produced), the non-backtracking variant
(`src/src/index.js`) emits exactly the same ordered event sequence as the
backtracking variant (`src/unnamed/part_000`), and the two final states stay
in correspondence; moreover, on every single byte — including a checksum
failure — the two variants emit identical events, so they differ only in the
state (scan-resume position) after a failure. -/
theorem claimC10_equivalence :
    (∀ (lookup : Nat → Nat → Option Nat) (options : Option Int) (d : List Nat),
      (∀ e ∈ (processB lookup (constructB options) d).2, isFailedChecksumEvent e = false) →
      (runNB lookup (constructNB options) d).2 = (processB lookup (constructB options) d).2 ∧
      RelNB (runNB lookup (constructNB options) d).1 (processB lookup (constructB options) d).1) ∧
    (∀ (lookup : Nat → Nat → Option Nat) (n : ParserStateNB) (b : ParserStateB) (v : Nat),
      RelNB n b → (stepNB lookup n v).2 = (stepB lookup b v).2.1) := by
  constructor
  · intro lookup options d hno
    have hrun := (processB_run lookup (constructB options) d (InvB_construct options)).1
    exact runAgreeNB lookup (stepBound (constructB options) d) (constructNB options)
      (constructB options) d (processB lookup (constructB options) d).1
      (processB lookup (constructB options) d).2 (RelNB_construct options)
      (by rw [hrun]) hno
  · intro lookup n b v hR
    exact (stepAgreeNB lookup n b v hR).1

theorem claimC10_equivalence_witness :
    (runNB emptyLookup (constructNB none) [0xB5, 0x62, 3, 4, 1, 0, 7, 15, 41]).2
        = (processB emptyLookup (constructB none) [0xB5, 0x62, 3, 4, 1, 0, 7, 15, 41]).2 ∧
    RelNB (runNB emptyLookup (constructNB none) [0xB5, 0x62, 3, 4, 1, 0, 7, 15, 41]).1
      (processB emptyLookup (constructB none) [0xB5, 0x62, 3, 4, 1, 0, 7, 15, 41]).1 :=
  claimC10_equivalence.1 emptyLookup none [0xB5, 0x62, 3, 4, 1, 0, 7, 15, 41] (by decide)
